import Mathlib

/-!
Shallow embedding of the faceted filter engine of the alice-lg backend
(packages `api` and `config`): the value model (`Community`, `ExtCommunity`),
search filters, filter groups and filter sets with their matching and set
algebra (`Combine`, `Sub`, `MergeProperties`), and the community range /
label-directory parsers.

Go panics (failed type assertions, panics in `filterValueAsString`) are
modelled as `Option.none`; Go `error` returns are modelled with `Except`.
Go machine integers are modelled as unbounded `Int` (overflow of
`strconv.Atoi` is not modelled). Go string primitives used by the source
(`strings.Split`, `strings.SplitN(_, _, 2)`, `strings.TrimSpace`,
`strings.HasPrefix`) are re-implemented on `List Char` so that all
definitions reduce in the kernel; every separator used by the source is a
single ASCII character.
-/

/-- Characters Go `unicode.IsSpace` treats as space, restricted to ASCII
(the configuration bodies at issue are ASCII). -/
def isGoSpace (c : Char) : Bool :=
  c = ' ' || c = '\t' || c = '\n' || c = '\r' || c = '\x0b' || c = '\x0c'

/-- Model of Go `strings.TrimSpace` (ASCII fragment). -/
def goTrim (s : String) : String :=
  ⟨((s.data.dropWhile isGoSpace).reverse.dropWhile isGoSpace).reverse⟩

/-- Split a character list at every occurrence of `sep`.
The result is never empty. -/
def splitListChar (sep : Char) : List Char → List (List Char)
  | [] => [[]]
  | x :: xs =>
    let r := splitListChar sep xs
    if x = sep then [] :: r
    else
      match r with
      | y :: ys => (x :: y) :: ys
      | [] => [[x]]

/-- Model of Go `strings.Split(s, sep)` for a single-character separator. -/
def goSplit (sep : Char) (s : String) : List String :=
  (splitListChar sep s.data).map (fun l => ⟨l⟩)

/-- Split a character list at the first occurrence of `sep`, if any. -/
def breakAt (sep : Char) : List Char → Option (List Char × List Char)
  | [] => none
  | x :: xs =>
    if x = sep then some ([], xs)
    else (breakAt sep xs).map (fun p => (x :: p.1, p.2))

/-- Model of Go `strings.SplitN(s, sep, 2)` for a single-character
separator: at most two pieces, the second piece keeps later separators. -/
def goSplitN2 (sep : Char) (s : String) : List String :=
  match breakAt sep s.data with
  | none => [s]
  | some (a, b) => [⟨a⟩, ⟨b⟩]

/-- Model of Go `strings.HasPrefix(s, pre)` for a single-character prefix. -/
def goHasPrefixChar (c : Char) (s : String) : Bool :=
  match s.data with
  | [] => false
  | x :: _ => x = c

/-- Drop the first character, model of `s[1:]` after a one-byte prefix. -/
def goDrop1 (s : String) : String := ⟨s.data.drop 1⟩

/-- Decimal value of a digit list (caller has checked `Char.isDigit`). -/
def digitsVal (ds : List Char) : Nat :=
  ds.foldl (fun a c => a * 10 + (c.toNat - 48)) 0

/-- Parse a digit run; `none` on empty input or any non-digit. -/
def digitsVal? (ds : List Char) : Option Nat :=
  match ds with
  | [] => none
  | _ => if ds.all Char.isDigit then some (digitsVal ds) else none

/-- Model of Go `strconv.Atoi`: optional sign, then decimal digits
(64-bit overflow is not modelled). -/
def atoi? (s : String) : Option Int :=
  match s.data with
  | '-' :: ds => (digitsVal? ds).map (fun n => -(n : Int))
  | '+' :: ds => (digitsVal? ds).map (fun n => (n : Int))
  | ds => (digitsVal? ds).map (fun n => (n : Int))

/-- `type Community []int` (api): a BGP community, ordered integer tuple. -/
abbrev Community := List Int

/-- `Community.String`: colon-joined decimal rendering, `""` when empty. -/
def Community.string (com : Community) : String :=
  match com with
  | [] => ""
  | v :: rest => rest.foldl (fun s x => s ++ ":" ++ toString x) (toString v)

/-- One element of a Go `ExtCommunity []interface{}` value: in this program
an element is either a `string` (the type tag) or an `int`. -/
inductive ExtElem where
  | s (v : String)
  | i (v : Int)
  deriving DecidableEq

/-- `type ExtCommunity []interface{}` (api). -/
abbrev ExtCommunity := List ExtElem

/-- `ExtCommunity.String`: `""` when empty; otherwise the first element is
asserted to be a string and the rest to be ints (a failed assertion is a Go
panic, modelled as `none`). -/
def ExtCommunity.string (com : ExtCommunity) : Option String :=
  match com with
  | [] => some ""
  | ExtElem.s tag :: rest =>
    rest.foldl
      (fun acc e =>
        acc.bind fun r =>
          match e with
          | ExtElem.i v => some (r ++ ":" ++ toString v)
          | ExtElem.s _ => none)
      (some tag)
  | ExtElem.i _ :: _ => none

/-- Search keys (api): the six filterable attributes, in the fixed order
used by `NewSearchFilters`. -/
def SearchKeySources : String := "sources"

/-- See `SearchKeySources`. -/
def SearchKeyASNS : String := "asns"

/-- See `SearchKeySources`. -/
def SearchKeyCommunities : String := "communities"

/-- See `SearchKeySources`. -/
def SearchKeyExtCommunities : String := "ext_communities"

/-- See `SearchKeySources`. -/
def SearchKeyLargeCommunities : String := "large_communities"

/-- See `SearchKeySources`. -/
def SearchKeyAddrFamily : String := "addr_family"

/-- `FilterValue` (api) is `interface{}` in Go; a closed variant of every
dynamic type the source stores or dispatches on: `int`, `uint8`, `string`,
`*string`, `Community`, `ExtCommunity`. A `*string` carries an allocation
identity `ptr` besides its contents: Go compares such values by pointer. -/
inductive FilterValue where
  | int (v : Int)
  | uint8 (v : Nat)
  | str (v : String)
  | ptrStr (ptr : Nat) (v : String)
  | community (c : Community)
  | extCommunity (c : ExtCommunity)
  deriving DecidableEq

/-- `SearchFilter` (api): a predicate value with display label and
occurrence counter. -/
structure SearchFilter where
  Cardinality : Int
  Name : String
  Value : FilterValue
  deriving DecidableEq

/-- `searchFilterCmpInt`: `a.(int) == b.(int)`; the type assertions are
unchecked, so any non-`int` argument is a Go panic (`none`). -/
def searchFilterCmpInt : FilterValue → FilterValue → Option Bool
  | FilterValue.int a, FilterValue.int b => some (decide (a = b))
  | _, _ => none

/-- `searchFilterCmpString`: two `*string` values are compared as pointers
(interned pool values: equal pointers have equal contents); otherwise each
side is dereferenced or asserted to `string` — the `string` assertion is
unchecked, so any other kind is a Go panic (`none`). -/
def searchFilterCmpString : FilterValue → FilterValue → Option Bool
  | FilterValue.ptrStr p a, FilterValue.ptrStr q b => some (decide (p = q ∧ a = b))
  | FilterValue.ptrStr _ a, FilterValue.str b => some (decide (a = b))
  | FilterValue.str a, FilterValue.ptrStr _ b => some (decide (a = b))
  | FilterValue.str a, FilterValue.str b => some (decide (a = b))
  | _, _ => none

/-- `searchFilterCmpCommunity`: length check plus element-wise comparison,
i.e. list equality; the `Community` assertions are unchecked (`none` =
panic on any other kind). -/
def searchFilterCmpCommunity : FilterValue → FilterValue → Option Bool
  | FilterValue.community a, FilterValue.community b => some (decide (a = b))
  | _, _ => none

/-- `searchFilterCmpExtCommunity`: false unless both lengths are 3, then
element-wise interface comparison (= list equality at length 3); the
`ExtCommunity` assertions are unchecked (`none` = panic). -/
def searchFilterCmpExtCommunity : FilterValue → FilterValue → Option Bool
  | FilterValue.extCommunity a, FilterValue.extCommunity b =>
    if a.length = b.length ∧ a.length = 3 then some (decide (a = b)) else some false
  | _, _ => none

/-- `SearchFilter.Equal`: dispatches a compare function on the dynamic type
of `other.Value`; an unrecognized type (here: `uint8`) logs an anomaly and
returns false. The selected compare function can still panic on `f.Value`
(modelled as `none`). -/
def SearchFilter.Equal (f other : SearchFilter) : Option Bool :=
  match other.Value with
  | FilterValue.community _ => searchFilterCmpCommunity f.Value other.Value
  | FilterValue.extCommunity _ => searchFilterCmpExtCommunity f.Value other.Value
  | FilterValue.int _ => searchFilterCmpInt f.Value other.Value
  | FilterValue.str _ => searchFilterCmpString f.Value other.Value
  | FilterValue.ptrStr _ _ => searchFilterCmpString f.Value other.Value
  | FilterValue.uint8 _ => some false

/-- `filterValueAsString`: canonical string of a filter value; the
`ExtCommunity` case calls `ExtCommunity.String`, which panics (`none`) on
ill-typed elements. (The Go `default` panic branch is unreachable for this
closed variant.) -/
def filterValueAsString : FilterValue → Option String
  | FilterValue.int v => some (toString v)
  | FilterValue.uint8 v => some (toString v)
  | FilterValue.ptrStr _ s => some s
  | FilterValue.str s => some s
  | FilterValue.community c => some (Community.string c)
  | FilterValue.extCommunity c => ExtCommunity.string c

/-- The value→position index of a group: Go `map[string]int`, modelled as
an association list where `mapSet` overwrites. -/
abbrev FiltersIdx := List (String × Nat)

/-- Go map insert (overwrite semantics). -/
def mapSet (m : FiltersIdx) (k : String) (v : Nat) : FiltersIdx :=
  (k, v) :: m.filter (fun p => decide (p.1 ≠ k))

/-- Go map lookup. -/
def mapGet? (m : FiltersIdx) (k : String) : Option Nat :=
  (m.find? (fun p => decide (p.1 = k))).map (fun p => p.2)

/-- `SearchFilterGroup` (api): ordered filters for one facet key plus the
canonical-string index. -/
structure SearchFilterGroup where
  Key : String
  Filters : List SearchFilter
  filtersIdx : FiltersIdx
  deriving DecidableEq

/-- `FindFilter` over a filter list: first `Equal` match; a panic in any
`Equal` call before a match aborts (`none`); inner `none` is Go `nil`. -/
def findFilterL (l : List SearchFilter) (filter : SearchFilter) :
    Option (Option SearchFilter) :=
  match l with
  | [] => some none
  | f :: rest =>
    match f.Equal filter with
    | none => none
    | some true => some (some f)
    | some false => findFilterL rest filter

/-- `SearchFilterGroup.FindFilter`. -/
def SearchFilterGroup.FindFilter (g : SearchFilterGroup) (filter : SearchFilter) :
    Option (Option SearchFilter) :=
  findFilterL g.Filters filter

/-- `SearchFilterGroup.Contains`: `FindFilter(filter) != nil`. -/
def SearchFilterGroup.Contains (g : SearchFilterGroup) (filter : SearchFilter) :
    Option Bool :=
  (g.FindFilter filter).map Option.isSome

/-- `GetFilterByValue`: index lookup by canonical string; returns the
indexed filter together with its position (the Go function returns the
pointer `g.Filters[idx]`; an out-of-range stale index is a panic). -/
def SearchFilterGroup.GetFilterByValue (g : SearchFilterGroup) (value : FilterValue) :
    Option (Option (Nat × SearchFilter)) :=
  match filterValueAsString value with
  | none => none
  | some ref =>
    match mapGet? g.filtersIdx ref with
    | none => some none
    | some idx =>
      match g.Filters.get? idx with
      | none => none
      | some f => some (some (idx, f))

/-- Replace the element at position `i` (identity when out of range). -/
def listModify (l : List SearchFilter) (i : Nat) (f : SearchFilter → SearchFilter) :
    List SearchFilter :=
  match l, i with
  | [], _ => []
  | x :: xs, 0 => f x :: xs
  | x :: xs, Nat.succ n => x :: listModify xs n f

/-- `AddFilter`: if a filter with this canonical string is present its
cardinality is incremented (through the pointer) and the argument is
discarded; otherwise the argument is appended with cardinality forced to 1
and its position recorded in the index. -/
def SearchFilterGroup.AddFilter (g : SearchFilterGroup) (filter : SearchFilter) :
    Option SearchFilterGroup :=
  match g.GetFilterByValue filter.Value with
  | none => none
  | some (some (idx, _)) =>
    let inc := fun (f : SearchFilter) => { f with Cardinality := f.Cardinality + 1 }
    some { g with Filters := listModify g.Filters idx inc }
  | some none =>
    match filterValueAsString filter.Value with
    | none => none
    | some ref =>
      some { g with
              Filters := g.Filters ++ [{ filter with Cardinality := 1 }],
              filtersIdx := mapSet g.filtersIdx ref g.Filters.length }

/-- `AddFilters`: left fold of `AddFilter`. -/
def SearchFilterGroup.AddFilters (g : SearchFilterGroup) :
    List SearchFilter → Option SearchFilterGroup
  | [] => some g
  | f :: rest =>
    match g.AddFilter f with
    | none => none
    | some g2 => g2.AddFilters rest

/-- The fold inside `rebuildIndex`: `idx[canonical(f)] = position`, later
entries overwriting earlier ones; `none` when a canonical string panics. -/
def buildIdx : List SearchFilter → Nat → FiltersIdx → Option FiltersIdx
  | [], _, m => some m
  | f :: rest, i, m =>
    match filterValueAsString f.Value with
    | none => none
    | some ref => buildIdx rest (i + 1) (mapSet m ref i)

/-- `rebuildIndex`: replace the index by one rebuilt from the filters. -/
def SearchFilterGroup.rebuildIndex (g : SearchFilterGroup) : Option SearchFilterGroup :=
  (buildIdx g.Filters 0 []).map (fun m => { g with filtersIdx := m })

/-- `Filterable` (api): capability interface of matchable route/neighbor
objects, modelled as a record of the six match predicates
(`MatchAddrFamily` takes a `uint8`, modelled as `Nat`). -/
structure Filterable where
  MatchSourceID : String → Bool
  MatchASN : Int → Bool
  MatchCommunity : Community → Bool
  MatchExtCommunity : ExtCommunity → Bool
  MatchLargeCommunity : Community → Bool
  MatchAddrFamily : Nat → Bool

/-- Go conversion `uint8(x)` for `x : int`: the low 8 bits. -/
def intToUint8 (x : Int) : Nat := (x % 256).toNat

/-- `searchFilterMatchSource`: checked assertion `value.(string)`
(false on any other kind, including `*string`). -/
def searchFilterMatchSource (route : Filterable) (value : FilterValue) : Bool :=
  match value with
  | FilterValue.str s => route.MatchSourceID s
  | _ => false

/-- `searchFilterMatchASN`: checked assertion `value.(int)`. -/
def searchFilterMatchASN (route : Filterable) (value : FilterValue) : Bool :=
  match value with
  | FilterValue.int asn => route.MatchASN asn
  | _ => false

/-- `searchFilterMatchCommunity`: checked assertion `value.(Community)`. -/
def searchFilterMatchCommunity (route : Filterable) (value : FilterValue) : Bool :=
  match value with
  | FilterValue.community c => route.MatchCommunity c
  | _ => false

/-- `searchFilterMatchExtCommunity`: checked assertion `value.(ExtCommunity)`. -/
def searchFilterMatchExtCommunity (route : Filterable) (value : FilterValue) : Bool :=
  match value with
  | FilterValue.extCommunity c => route.MatchExtCommunity c
  | _ => false

/-- `searchFilterMatchLargeCommunity`: checked assertion `value.(Community)`. -/
def searchFilterMatchLargeCommunity (route : Filterable) (value : FilterValue) : Bool :=
  match value with
  | FilterValue.community c => route.MatchLargeCommunity c
  | _ => false

/-- `searchFilterMatchAddrFamily`: checked assertion `value.(int)`, then
`uint8(family)`. -/
def searchFilterMatchAddrFamily (route : Filterable) (value : FilterValue) : Bool :=
  match value with
  | FilterValue.int family => route.MatchAddrFamily (intToUint8 family)
  | _ => false

/-- `selectCmpFuncByKey`: closed dispatch from facet key to comparator;
`none` for an unrecognized key. -/
def selectCmpFuncByKey (key : String) : Option (Filterable → FilterValue → Bool) :=
  if key = SearchKeySources then some searchFilterMatchSource
  else if key = SearchKeyASNS then some searchFilterMatchASN
  else if key = SearchKeyCommunities then some searchFilterMatchCommunity
  else if key = SearchKeyExtCommunities then some searchFilterMatchExtCommunity
  else if key = SearchKeyLargeCommunities then some searchFilterMatchLargeCommunity
  else if key = SearchKeyAddrFamily then some searchFilterMatchAddrFamily
  else none

/-- `MatchAny`: true on an empty group; false on an unrecognized key;
otherwise true iff some filter's value accepts the route. -/
def SearchFilterGroup.MatchAny (g : SearchFilterGroup) (route : Filterable) : Bool :=
  if g.Filters.length = 0 then true
  else
    match selectCmpFuncByKey g.Key with
    | none => false
    | some cmp => g.Filters.any (fun filter => cmp route filter.Value)

/-- `MatchAll`: true on an empty group; false on an unrecognized key;
otherwise true iff every filter's value accepts the route. -/
def SearchFilterGroup.MatchAll (g : SearchFilterGroup) (route : Filterable) : Bool :=
  if g.Filters.length = 0 then true
  else
    match selectCmpFuncByKey g.Key with
    | none => false
    | some cmp => g.Filters.all (fun filter => cmp route filter.Value)

/-- `SearchFilters` (api): Go is a slice of six group pointers in the
fixed facet order; modelled as a record with one field per position
(field order = slice order). -/
structure SearchFilters where
  sources : SearchFilterGroup
  asns : SearchFilterGroup
  communities : SearchFilterGroup
  extCommunities : SearchFilterGroup
  largeCommunities : SearchFilterGroup
  addrFamily : SearchFilterGroup
  deriving DecidableEq

/-- An empty group for `NewSearchFilters`. -/
def emptyGroup (key : String) : SearchFilterGroup :=
  { Key := key, Filters := [], filtersIdx := [] }

/-- `NewSearchFilters`: six empty groups in the fixed (load-bearing) order. -/
def NewSearchFilters : SearchFilters :=
  { sources := emptyGroup SearchKeySources
    asns := emptyGroup SearchKeyASNS
    communities := emptyGroup SearchKeyCommunities
    extCommunities := emptyGroup SearchKeyExtCommunities
    largeCommunities := emptyGroup SearchKeyLargeCommunities
    addrFamily := emptyGroup SearchKeyAddrFamily }

/-- `GetGroupByKey`: the fixed key→position map (`nil` for unknown keys). -/
def SearchFilters.GetGroupByKey (s : SearchFilters) (key : String) :
    Option SearchFilterGroup :=
  if key = SearchKeySources then some s.sources
  else if key = SearchKeyASNS then some s.asns
  else if key = SearchKeyCommunities then some s.communities
  else if key = SearchKeyExtCommunities then some s.extCommunities
  else if key = SearchKeyLargeCommunities then some s.largeCommunities
  else if key = SearchKeyAddrFamily then some s.addrFamily
  else none

/-- `MatchRoute`: per facet in fixed order — sources `MatchAny`, asns
`MatchAny`, communities `MatchAll`, ext `MatchAll`, large `MatchAll`,
addr-family `MatchAny` — returning false at the first failing facet.
(`GetGroupByKey` with the six constants yields exactly the six fields.) -/
def SearchFilters.MatchRoute (s : SearchFilters) (r : Filterable) : Bool :=
  if !(s.sources.MatchAny r) then false
  else if !(s.asns.MatchAny r) then false
  else if !(s.communities.MatchAll r) then false
  else if !(s.extCommunities.MatchAll r) then false
  else if !(s.largeCommunities.MatchAll r) then false
  else if !(s.addrFamily.MatchAny r) then false
  else true

/-- The per-group loop of `Combine`: starting from `self`'s filters, append
each of `other`'s filters whose value is not already contained (`Contains`
is evaluated against the growing result, and can panic). -/
def combineFiltersAux (acc : List SearchFilter) :
    List SearchFilter → Option (List SearchFilter)
  | [] => some acc
  | f :: rest =>
    match (findFilterL acc f).map Option.isSome with
    | none => none
    | some true => combineFiltersAux acc rest
    | some false => combineFiltersAux (acc ++ [f]) rest

/-- One facet position of `Combine`: fresh group with `self`'s key, the
deduplicating append, then `rebuildIndex`. -/
def combineGroup (group otherGroup : SearchFilterGroup) : Option SearchFilterGroup :=
  match combineFiltersAux group.Filters otherGroup.Filters with
  | none => none
  | some fs =>
    SearchFilterGroup.rebuildIndex
      { Key := group.Key, Filters := fs, filtersIdx := [] }

/-- `SearchFilters.Combine`: positional union of the six facet groups,
producing a new filter set (inputs unchanged). -/
def SearchFilters.Combine (s other : SearchFilters) : Option SearchFilters :=
  match combineGroup s.sources other.sources,
        combineGroup s.asns other.asns,
        combineGroup s.communities other.communities,
        combineGroup s.extCommunities other.extCommunities,
        combineGroup s.largeCommunities other.largeCommunities,
        combineGroup s.addrFamily other.addrFamily with
  | some g0, some g1, some g2, some g3, some g4, some g5 =>
    some { sources := g0, asns := g1, communities := g2,
           extCommunities := g3, largeCommunities := g4, addrFamily := g5 }
  | _, _, _, _, _, _ => none

/-- The per-group loop of `Sub`: keep `self`'s filters not contained in the
other group (`Contains` can panic). -/
def subFilters : List SearchFilter → List SearchFilter → Option (List SearchFilter)
  | [], _ => some []
  | f :: rest, lb =>
    match (findFilterL lb f).map Option.isSome with
    | none => none
    | some true => subFilters rest lb
    | some false => (subFilters rest lb).map (fun r => f :: r)

/-- One facet position of `Sub`: fresh group with `self`'s key, the
difference, then `rebuildIndex`. -/
def subGroup (group otherGroup : SearchFilterGroup) : Option SearchFilterGroup :=
  match subFilters group.Filters otherGroup.Filters with
  | none => none
  | some fs =>
    SearchFilterGroup.rebuildIndex
      { Key := group.Key, Filters := fs, filtersIdx := [] }

/-- `SearchFilters.Sub`: positional difference of the six facet groups. -/
def SearchFilters.Sub (s other : SearchFilters) : Option SearchFilters :=
  match subGroup s.sources other.sources,
        subGroup s.asns other.asns,
        subGroup s.communities other.communities,
        subGroup s.extCommunities other.extCommunities,
        subGroup s.largeCommunities other.largeCommunities,
        subGroup s.addrFamily other.addrFamily with
  | some g0, some g1, some g2, some g3, some g4, some g5 =>
    some { sources := g0, asns := g1, communities := g2,
           extCommunities := g3, largeCommunities := g4, addrFamily := g5 }
  | _, _, _, _, _, _ => none

/-- The per-group loop of `MergeProperties`: each of `self`'s filters takes
name and cardinality from its `FindFilter` counterpart in the other group
when one exists (`FindFilter` can panic). -/
def mergeFilters : List SearchFilter → List SearchFilter → Option (List SearchFilter)
  | [], _ => some []
  | f :: rest, lb =>
    match findFilterL lb f with
    | none => none
    | some found =>
      let f2 := match found with
        | some o => { f with Name := o.Name, Cardinality := o.Cardinality }
        | none => f
      (mergeFilters rest lb).map (fun r => f2 :: r)

/-- One facet position of `MergeProperties`: the group keeps its key and
index, only the filters' name/cardinality fields change. -/
def mergeGroup (group otherGroup : SearchFilterGroup) : Option SearchFilterGroup :=
  (mergeFilters group.Filters otherGroup.Filters).map
    (fun fs => { group with Filters := fs })

/-- `SearchFilters.MergeProperties`: in Go this mutates `self` in place;
modelled as returning the updated `self` (`other` is read-only). -/
def SearchFilters.MergeProperties (s other : SearchFilters) : Option SearchFilters :=
  match mergeGroup s.sources other.sources,
        mergeGroup s.asns other.asns,
        mergeGroup s.communities other.communities,
        mergeGroup s.extCommunities other.extCommunities,
        mergeGroup s.largeCommunities other.largeCommunities,
        mergeGroup s.addrFamily other.addrFamily with
  | some g0, some g1, some g2, some g3, some g4, some g5 =>
    some { sources := g0, asns := g1, communities := g2,
           extCommunities := g3, largeCommunities := g4, addrFamily := g5 }
  | _, _, _, _, _, _ => none

/-- `HasGroup`: the named facet's group is non-empty (false also for an
unknown key, where Go would dereference nil). -/
def SearchFilters.HasGroup (s : SearchFilters) (key : String) : Bool :=
  match s.GetGroupByKey key with
  | some g => decide (g.Filters.length > 0)
  | none => false

/-- Modelled from the spec: `parseCommunityValue` (api, not under src/).
Per §6, `communities`/`large_communities` values are colon-delimited
integers; every segment must parse or the value is rejected. The filter
carries the community as value and its canonical string as name. -/
def parseCommunityValue (value : String) : Except String SearchFilter :=
  match (goSplit ':' value).mapM atoi? with
  | some comm =>
    Except.ok { Cardinality := 0, Name := Community.string comm,
                Value := FilterValue.community comm }
  | none => Except.error "invalid community"

/-- Modelled from the spec: `parseExtCommunityValue` (api, not under
src/). Per §6, `ext_communities` values are `tag:int:int`: exactly three
colon-delimited segments, the last two integers. -/
def parseExtCommunityValue (value : String) : Except String SearchFilter :=
  match goSplit ':' value with
  | [tag, a, b] =>
    match atoi? a, atoi? b with
    | some x, some y =>
      Except.ok { Cardinality := 0, Name := tag ++ ":" ++ toString x ++ ":" ++ toString y,
                  Value := FilterValue.extCommunity [ExtElem.s tag, ExtElem.i x, ExtElem.i y] }
    | _, _ => Except.error "invalid ext community"
  | _ => Except.error "invalid ext community"

/-- `parseCommunityFilterText` (api): classify community text; fewer than
two colon tokens is an error; a first token that does not `Atoi`-parse
selects the ext-community parser; otherwise two tokens select the standard
community facet and more select the large community facet. -/
def parseCommunityFilterText (text : String) :
    Except String (String × SearchFilter) :=
  let tokens := goSplit ':' text
  if tokens.length < 2 then Except.error "BGP community incomplete"
  else
    let maybeExt := (atoi? (tokens.headD "")).isNone
    if maybeExt then
      match parseExtCommunityValue text with
      | Except.error e => Except.error e
      | Except.ok filter => Except.ok (SearchKeyExtCommunities, filter)
    else
      match parseCommunityValue text with
      | Except.error _ => Except.error "BGP community incomplete"
      | Except.ok filter =>
        if tokens.length = 2 then Except.ok (SearchKeyCommunities, filter)
        else Except.ok (SearchKeyLargeCommunities, filter)

/-- `queryFilters.GetGroupByKey(key).AddFilter(filter)`: adds through the
group pointer at the fixed position of `key`; an unknown key is a nil
dereference (panic), and `AddFilter` itself can panic. -/
def SearchFilters.addFilterToGroup (s : SearchFilters) (key : String)
    (filter : SearchFilter) : Option SearchFilters :=
  if key = SearchKeySources then
    (s.sources.AddFilter filter).map (fun g => { s with sources := g })
  else if key = SearchKeyASNS then
    (s.asns.AddFilter filter).map (fun g => { s with asns := g })
  else if key = SearchKeyCommunities then
    (s.communities.AddFilter filter).map (fun g => { s with communities := g })
  else if key = SearchKeyExtCommunities then
    (s.extCommunities.AddFilter filter).map (fun g => { s with extCommunities := g })
  else if key = SearchKeyLargeCommunities then
    (s.largeCommunities.AddFilter filter).map (fun g => { s with largeCommunities := g })
  else if key = SearchKeyAddrFamily then
    (s.addrFamily.AddFilter filter).map (fun g => { s with addrFamily := g })
  else none

/-- The token loop of `FiltersFromTokens`: tokens without the `#` prefix
are ignored; a parse error fails the whole call; outer `none` is a panic
inside `AddFilter` (unreachable for parser-produced filters). -/
def filtersFromTokensAux (s : SearchFilters) :
    List String → Option (Except String SearchFilters)
  | [] => some (Except.ok s)
  | value :: rest =>
    if goHasPrefixChar '#' value then
      match parseCommunityFilterText (goDrop1 value) with
      | Except.error e => some (Except.error e)
      | Except.ok (key, filter) =>
        match s.addFilterToGroup key filter with
        | none => none
        | some s2 => filtersFromTokensAux s2 rest
    else filtersFromTokensAux s rest

/-- `FiltersFromTokens` (api). -/
def FiltersFromTokens (tokens : List String) : Option (Except String SearchFilters) :=
  filtersFromTokensAux NewSearchFilters tokens

/-- `ErrInvalidCommunity` (config): the invalid-community error text. -/
def ErrInvalidCommunity (s : String) : String := "invalid community: " ++ s

/-- One element of a Go `api.BGPCommunityRange` (a `[]interface{}`): the
parser stores either a `[]string` pair (ext type tag bounds) or a `[]int`
list (integer range bounds). -/
inductive RangePart where
  | strs (l : List String)
  | ints (l : List Int)
  deriving DecidableEq

/-- `api.BGPCommunityRange`. -/
abbrev BGPCommunityRange := List RangePart

/-- `api.BGPCommunityType*` constants. -/
inductive BGPCommunityType where
  | std
  | large
  | ext
  deriving DecidableEq

/-- Modelled from the spec: `BGPCommunityRange.Type` (api, not under
src/). Per §3 a range is extended when its first positional token is the
(non-integer) string tag, otherwise standard at exactly 2 positional
tokens and large at 3; other shapes have no type (the classification
switch in `parseRangeCommunitiesSet` drops them). -/
def BGPCommunityRange.Type (c : BGPCommunityRange) : Option BGPCommunityType :=
  match c with
  | RangePart.strs _ :: _ => some BGPCommunityType.ext
  | _ =>
    if c.length = 2 then some BGPCommunityType.std
    else if c.length = 3 then some BGPCommunityType.large
    else none

/-- Modelled from the spec: `decoders.IntListFromStrings` (not under
src/). Converts a list of decimal strings to integers; entries that do not
parse are dropped. -/
def IntListFromStrings (strs : List String) : List Int :=
  strs.filterMap atoi?

/-- The `low-high` split of one colon token of `parseRangeCommunity`:
`strings.SplitN(t, "-", 2)`, duplicating the token when no hyphen is
present. -/
def splitRangePair (t : String) : String × String :=
  match goSplitN2 '-' t with
  | [x] => (x, x)
  | x :: y :: _ => (x, y)
  | [] => (t, t)

/-- The token loop of `parseRangeCommunity` building `parts`: Go checks
`len(values) == 0` per token, which cannot happen for `SplitN(_, _, 2)`
(the error branch is dead but kept). -/
def parseRangeParts (s : String) : List String → Except String (List (String × String))
  | [] => Except.ok []
  | t :: rest =>
    match goSplitN2 '-' t with
    | [] => Except.error (ErrInvalidCommunity s)
    | _ => (parseRangeParts s rest).map (fun ps => splitRangePair t :: ps)

/-- `parseRangeCommunity` (config): colon-tokenize; fewer than 2 tokens is
an error; each token becomes a `low-high` bound pair; the line is an
ext community when `Atoi` fails on the low bound of the first token, which
then requires exactly 3 tokens and duplicates the tag as both bounds;
otherwise every token is converted to an integer list. -/
def parseRangeCommunity (s : String) : Except String BGPCommunityRange :=
  let tokens := goSplit ':' s
  if tokens.length < 2 then Except.error (ErrInvalidCommunity s)
  else
    match parseRangeParts s tokens with
    | Except.error e => Except.error e
    | Except.ok parts =>
      if parts.length ≤ 1 then Except.error (ErrInvalidCommunity s)
      else
        let isExt := (atoi? (parts.headD ("", "")).1).isNone
        if isExt ∧ parts.length ≠ 3 then Except.error (ErrInvalidCommunity s)
        else if isExt then
          match parts with
          | p0 :: p1 :: p2 :: _ =>
            Except.ok [RangePart.strs [p0.1, p0.1],
                       RangePart.ints (IntListFromStrings [p1.1, p1.2]),
                       RangePart.ints (IntListFromStrings [p2.1, p2.2])]
          | _ => Except.error (ErrInvalidCommunity s)
        else
          Except.ok (parts.map (fun p => RangePart.ints (IntListFromStrings [p.1, p.2])))

/-- `api.BGPCommunitiesSet`: ranges partitioned by kind. -/
structure BGPCommunitiesSet where
  Standard : List BGPCommunityRange
  Large : List BGPCommunityRange
  Extended : List BGPCommunityRange
  deriving DecidableEq

/-- The line loop of `parseRangeCommunitiesSet`: trim; skip empty lines and
`#` comments; any `parseRangeCommunity` error aborts; otherwise classify by
`Type()` into the three collections (order preserved). -/
def parseRangeLines : List String →
    Except String (List BGPCommunityRange × List BGPCommunityRange × List BGPCommunityRange)
  | [] => Except.ok ([], [], [])
  | line :: rest =>
    let l := goTrim line
    if l = "" then parseRangeLines rest
    else if goHasPrefixChar '#' l then parseRangeLines rest
    else
      match parseRangeCommunity l with
      | Except.error e => Except.error e
      | Except.ok comm =>
        (parseRangeLines rest).map (fun t =>
          match comm.Type with
          | some BGPCommunityType.std => (comm :: t.1, t.2.1, t.2.2)
          | some BGPCommunityType.large => (t.1, comm :: t.2.1, t.2.2)
          | some BGPCommunityType.ext => (t.1, t.2.1, comm :: t.2.2)
          | none => t)

/-- `parseRangeCommunitiesSet` (config). -/
def parseRangeCommunitiesSet (body : String) : Except String BGPCommunitiesSet :=
  (parseRangeLines (goSplit '\n' body)).map
    (fun t => { Standard := t.1, Large := t.2.1, Extended := t.2.2 })

/-- Modelled from the spec: `api.BGPCommunityMap` with its `Set` method
(not under src/); §4.3 calls it "a flat community→label directory", so it
is modelled as a string→string map (association list, `Set` overwrites). -/
abbrev BGPCommunityMap := List (String × String)

/-- Modelled from the spec: `BGPCommunityMap.Set` binds a community string
to a label, replacing an existing binding. -/
def BGPCommunityMap.Set (m : BGPCommunityMap) (k v : String) : BGPCommunityMap :=
  (k, v) :: m.filter (fun p => decide (p.1 ≠ k))

/-- Lookup in a `BGPCommunityMap`. -/
def BGPCommunityMap.Get? (m : BGPCommunityMap) (k : String) : Option String :=
  (m.find? (fun p => decide (p.1 = k))).map (fun p => p.2)

/-- `parseAndMergeCommunities` (config): split the body into lines; a line
without `=` is skipped (with a warning); otherwise `SplitN(line, "=", 2)`
yields key and label, both trimmed, and the entry is set. Never fails. -/
def parseAndMergeCommunities (communities : BGPCommunityMap) (body : String) :
    BGPCommunityMap :=
  (goSplit '\n' body).foldl
    (fun acc line =>
      match goSplitN2 '=' line with
      | [k, v] => acc.Set (goTrim k) (goTrim v)
      | _ => acc)
    communities

/-- `parseRejectionCandidateCommunities` (config): lines without `=` and
lines whose trimmed key is not `communities` are skipped (logged);
otherwise each comma-separated entry of the trimmed value is bound to
`reject-candidate-<n>` with a counter `n` cumulative over the whole body;
the function always returns `nil` error. -/
def parseRejectionCandidateCommunities (comms : BGPCommunityMap) (s : String) :
    Except String BGPCommunityMap :=
  let res := (goSplit '\n' s).foldl
    (fun (acc : BGPCommunityMap × Nat) line =>
      match goSplitN2 '=' line with
      | [k, v] =>
        if goTrim k = "communities" then
          (goSplit ',' (goTrim v)).foldl
            (fun (a : BGPCommunityMap × Nat) c =>
              (a.1.Set c ("reject-candidate-" ++ toString (a.2 + 1)), a.2 + 1))
            acc
        else acc
      | _ => acc)
    (comms, 0)
  Except.ok res.1

deriving instance DecidableEq for Except

/-- The dynamic kind of a `FilterValue`, mirroring the type switch of
`SearchFilter.Equal` (`string` and `*string` are distinct dynamic types). -/
inductive VKind where
  | kint
  | kuint8
  | kstr
  | kptr
  | kcomm
  | kext
  deriving DecidableEq

/-- Kind of a value. -/
def kindOf : FilterValue → VKind
  | FilterValue.int _ => VKind.kint
  | FilterValue.uint8 _ => VKind.kuint8
  | FilterValue.str _ => VKind.kstr
  | FilterValue.ptrStr _ _ => VKind.kptr
  | FilterValue.community _ => VKind.kcomm
  | FilterValue.extCommunity _ => VKind.kext

/-- The kind as the spec groups values: `string` and `*string` are one
string kind. -/
def kindFamily (v : FilterValue) : VKind :=
  match kindOf v with
  | VKind.kptr => VKind.kstr
  | k => k

/-- Well-typed values, on which `Equal` within a kind is plain value
equality and `filterValueAsString` cannot panic: `uint8` is excluded (the
dispatch does not recognize it) and an ext community must have the shape
`[tag, int, int]` the program constructs. -/
def wellTypedV : FilterValue → Bool
  | FilterValue.uint8 _ => false
  | FilterValue.extCommunity [ExtElem.s _, ExtElem.i _, ExtElem.i _] => true
  | FilterValue.extCommunity _ => false
  | _ => true

/-- All filters in the list are well typed of the one kind `k`. -/
abbrev GoodL (k : VKind) (l : List SearchFilter) : Prop :=
  ∀ f ∈ l, kindOf f.Value = k ∧ wellTypedV f.Value = true

/-- Hypotheses under which a facet position of `Combine` is panic-free and
implements a value-wise union: the two groups' values share one kind and
are well typed, and the left group is duplicate-free (the group invariant
of the data model). -/
def CombineHyp (ga gb : SearchFilterGroup) : Prop :=
  (∃ k, GoodL k (ga.Filters ++ gb.Filters)) ∧
  ga.Filters.Pairwise (fun f g => f.Value ≠ g.Value)

/-- What `Combine` produces at one facet position: the key is kept, the
result's values are exactly the union of both sides' values without
duplicates, the left group's filters are kept verbatim (left bias: label
and cardinality of common values come from the left copy) followed only by
right-group filters with new values, and the index is the one rebuilt from
the result filters. -/
def CombineGroupOK (ga gb gc : SearchFilterGroup) : Prop :=
  gc.Key = ga.Key ∧
  (∀ v, (∃ f ∈ gc.Filters, f.Value = v) ↔
    ((∃ f ∈ ga.Filters, f.Value = v) ∨ (∃ f ∈ gb.Filters, f.Value = v))) ∧
  gc.Filters.Pairwise (fun f g => f.Value ≠ g.Value) ∧
  (∃ ex, gc.Filters = ga.Filters ++ ex ∧
    ∀ f ∈ ex, f ∈ gb.Filters ∧ ∀ g ∈ ga.Filters, g.Value ≠ f.Value) ∧
  buildIdx gc.Filters 0 [] = some gc.filtersIdx

/-- Hypothesis under which a facet position of `Sub` or `MergeProperties`
is panic-free: one well-typed kind across both groups. -/
def SameKindHyp (ga gb : SearchFilterGroup) : Prop :=
  ∃ k, GoodL k (ga.Filters ++ gb.Filters)

/-- What `Sub` produces at one facet position: exactly the left filters
whose value is absent from the right group, with the index rebuilt. -/
def SubGroupOK (ga gb gc : SearchFilterGroup) : Prop :=
  gc.Key = ga.Key ∧
  gc.Filters = ga.Filters.filter
    (fun f => !(gb.Filters.any (fun g => decide (g.Value = f.Value)))) ∧
  buildIdx gc.Filters 0 [] = some gc.filtersIdx

/-- What `MergeProperties` produces at one facet position: key, index and
the value sequence are unchanged; a filter with a value-equal counterpart
in the other group takes that (first) counterpart's name and cardinality,
any other filter is untouched. -/
def MergeGroupOK (ga gb gc : SearchFilterGroup) : Prop :=
  gc.Key = ga.Key ∧
  gc.filtersIdx = ga.filtersIdx ∧
  gc.Filters = ga.Filters.map (fun f =>
    match gb.Filters.find? (fun g => decide (g.Value = f.Value)) with
    | some o => { f with Name := o.Name, Cardinality := o.Cardinality }
    | none => f) ∧
  gc.Filters.map SearchFilter.Value = ga.Filters.map SearchFilter.Value

/-- The pure dedup-append `Combine` performs on one facet's filter lists. -/
def dedupAppendV (acc lb : List SearchFilter) : List SearchFilter :=
  lb.foldl (fun a f => if a.any (fun g => decide (g.Value = f.Value)) then a else a ++ [f]) acc

/-- Claim C1, counterexample: comparing a Community-valued filter against
an int-valued filter does not return false — the dispatch selects
`searchFilterCmpInt`, whose unchecked assertion `a.(int)` on the Community
value panics (modelled as `none`), contradicting "never errors or panics".
-/
theorem equal_cross_kind_counterexample :
    SearchFilter.Equal { Cardinality := 0, Name := "", Value := FilterValue.community [1, 2] }
      { Cardinality := 0, Name := "", Value := FilterValue.int 5 } = none := by
  decide

/-- Claim C1, amended: a cross-kind comparison returns false (and is
logged) only when the right-hand value's dynamic type is unrecognized by
the dispatch (`uint8`); when the right-hand type is recognized (int,
string, `*string`, Community, ExtCommunity) and the left-hand value has a
different kind (string and `*string` counting as one kind), the selected
compare function panics on its unchecked type assertion. -/
theorem equal_cross_kind (f g : SearchFilter)
    (h : kindFamily f.Value ≠ kindFamily g.Value) :
    SearchFilter.Equal f g =
      (if kindOf g.Value = VKind.kuint8 then some false else none) := by
  rcases f with ⟨fc, fn, fv⟩
  rcases g with ⟨gc, gn, gv⟩
  cases fv <;> cases gv <;>
    simp_all [SearchFilter.Equal, kindFamily, kindOf, searchFilterCmpInt,
      searchFilterCmpString, searchFilterCmpCommunity, searchFilterCmpExtCommunity]

/-- Witness for C1's amended theorem at a concrete cross-kind pair. -/
theorem equal_cross_kind_witness :
    kindFamily (FilterValue.extCommunity [ExtElem.s "t", ExtElem.i 1, ExtElem.i 2]) ≠
      kindFamily (FilterValue.str "x") ∧
    SearchFilter.Equal
      { Cardinality := 0, Name := "",
        Value := FilterValue.extCommunity [ExtElem.s "t", ExtElem.i 1, ExtElem.i 2] }
      { Cardinality := 0, Name := "", Value := FilterValue.str "x" } =
      (if kindOf (FilterValue.str "x") = VKind.kuint8 then some false else none) :=
  ⟨by decide,
   equal_cross_kind
     { Cardinality := 0, Name := "",
       Value := FilterValue.extCommunity [ExtElem.s "t", ExtElem.i 1, ExtElem.i 2] }
     { Cardinality := 0, Name := "", Value := FilterValue.str "x" } (by decide)⟩

/-- Claim C5: `MatchRoute` is the conjunction, in the fixed facet order, of
sources `MatchAny`, asns `MatchAny`, communities `MatchAll`, ext
`MatchAll`, large `MatchAll` and addr-family `MatchAny` (the nested
early-false returns short-circuit at the first failing facet), and both
`MatchAny` and `MatchAll` are true on an empty group for every key, index
and route. -/
theorem matchroute_conjunction (s : SearchFilters) (r : Filterable)
    (k : String) (ix : FiltersIdx) :
    s.MatchRoute r = (s.sources.MatchAny r && s.asns.MatchAny r &&
      s.communities.MatchAll r && s.extCommunities.MatchAll r &&
      s.largeCommunities.MatchAll r && s.addrFamily.MatchAny r) ∧
    SearchFilterGroup.MatchAny { Key := k, Filters := [], filtersIdx := ix } r = true ∧
    SearchFilterGroup.MatchAll { Key := k, Filters := [], filtersIdx := ix } r = true := by
  refine ⟨?_, rfl, rfl⟩
  simp only [SearchFilters.MatchRoute]
  cases s.sources.MatchAny r <;> cases s.asns.MatchAny r <;>
    cases s.communities.MatchAll r <;> cases s.extCommunities.MatchAll r <;>
    cases s.largeCommunities.MatchAll r <;> cases s.addrFamily.MatchAny r <;> simp

/-- Inserting into the index and looking the same key up. -/
theorem mapGet_mapSet_self (m : FiltersIdx) (k : String) (v : Nat) :
    mapGet? (mapSet m k v) k = some v := by
  simp [mapGet?, mapSet, List.find?]

/-- `listModify` preserves the length. -/
theorem listModify_length (l : List SearchFilter) (i : Nat)
    (f : SearchFilter → SearchFilter) :
    (listModify l i f).length = l.length := by
  induction l generalizing i with
  | nil => rfl
  | cons x xs ih =>
    cases i with
    | zero => rfl
    | succ n => simp [listModify, ih]

/-- Two modifications at the same position compose. -/
theorem listModify_listModify (l : List SearchFilter) (i : Nat)
    (f g : SearchFilter → SearchFilter) :
    listModify (listModify l i f) i g = listModify l i (fun x => g (f x)) := by
  induction l generalizing i with
  | nil => rfl
  | cons x xs ih =>
    cases i with
    | zero => rfl
    | succ n => simp [listModify, ih]

/-- Modifying the position right after a prefix hits the appended element. -/
theorem listModify_append_last (l : List SearchFilter) (x : SearchFilter)
    (f : SearchFilter → SearchFilter) :
    listModify (l ++ [x]) l.length f = l ++ [f x] := by
  induction l with
  | nil => rfl
  | cons y ys ih => simp [listModify, ih]

/-- A pointwise-identity modification is the identity. -/
theorem listModify_congr_id (l : List SearchFilter) (i : Nat)
    (f : SearchFilter → SearchFilter) (h : ∀ x, f x = x) : listModify l i f = l := by
  induction l generalizing i with
  | nil => rfl
  | cons x xs ih =>
    cases i with
    | zero => simp [listModify, h]
    | succ n => simp [listModify, ih]

/-- Repeated `AddFilter` of filters whose canonical string is already
indexed at a valid position increments that filter's cardinality once per
call and changes nothing else. -/
theorem addFilters_inc (fs : List SearchFilter) (g : SearchFilterGroup)
    (r : String) (idx : Nat)
    (hall : ∀ f ∈ fs, filterValueAsString f.Value = some r)
    (hidx : mapGet? g.filtersIdx r = some idx)
    (hlt : idx < g.Filters.length) :
    g.AddFilters fs = some { g with Filters := listModify g.Filters idx (fun f => { f with Cardinality := f.Cardinality + (fs.length : Nat) }) } := by
  induction fs generalizing g with
  | nil =>
    have hid : (listModify g.Filters idx (fun f => { f with Cardinality := f.Cardinality + ((List.length ([] : List SearchFilter) : Nat) : Int) })) = g.Filters := by
      refine listModify_congr_id _ _ _ (fun x => ?_)
      simp
    simp only [SearchFilterGroup.AddFilters]
    rw [hid]
  | cons f fs ih =>
    have hf : filterValueAsString f.Value = some r := hall f (by simp)
    have hget : g.Filters[idx]? = some (g.Filters[idx]) :=
      List.getElem?_eq_getElem hlt
    have hstep : g.AddFilter f = some { g with Filters := listModify g.Filters idx (fun f => { f with Cardinality := f.Cardinality + 1 }) } := by
      simp [SearchFilterGroup.AddFilter, SearchFilterGroup.GetFilterByValue, hf, hidx, hget]
    have ihg := ih { g with Filters := listModify g.Filters idx (fun f => { f with Cardinality := f.Cardinality + 1 }) } (fun f hf2 => hall f (by simp [hf2])) (by simpa using hidx) (by simpa [listModify_length] using hlt)
    have hcomp : listModify (listModify g.Filters idx (fun f => { f with Cardinality := f.Cardinality + 1 })) idx (fun f => { f with Cardinality := f.Cardinality + (fs.length : Nat) }) = listModify g.Filters idx (fun f => { f with Cardinality := f.Cardinality + ((fs.length + 1 : Nat) : Int) }) := by
      rw [listModify_listModify]
      refine congrArg (listModify g.Filters idx) ?_
      funext x
      simp only [SearchFilter.mk.injEq, and_true]
      push_cast
      ring
    simp only [SearchFilterGroup.AddFilters, hstep, ihg, hcomp, List.length_cons]

/-- Claim C4: adding `N ≥ 1` filters whose values all render to the
canonical string of `v` to a group that starts without that canonical
string (neither among its filters nor in its index) appends exactly one
filter — the first one, its cardinality forced to 1 on insertion and then
incremented once per further call, ending at `N` — records its position in
the index, and discards the later arguments; the group then holds exactly
one filter with that canonical string. -/
theorem addfilter_dedup_cardinality (g : SearchFilterGroup) (v : FilterValue)
    (r : String) (f0 : SearchFilter) (fs : List SearchFilter)
    (hr : filterValueAsString v = some r)
    (hidx : mapGet? g.filtersIdx r = none)
    (hnotin : ∀ f ∈ g.Filters, filterValueAsString f.Value ≠ some r)
    (hall : ∀ f ∈ f0 :: fs, filterValueAsString f.Value = some r) :
    g.AddFilters (f0 :: fs) = some { Key := g.Key, Filters := g.Filters ++ [{ f0 with Cardinality := 1 + (fs.length : Nat) }], filtersIdx := mapSet g.filtersIdx r g.Filters.length } ∧
    ((g.Filters ++ [{ f0 with Cardinality := 1 + (fs.length : Nat) }]).filter (fun f : SearchFilter => decide (filterValueAsString f.Value = some r))).length = 1 := by
  have hf0 : filterValueAsString f0.Value = some r := hall f0 (by simp)
  constructor
  · have hstep : g.AddFilter f0 = some { g with Filters := g.Filters ++ [{ f0 with Cardinality := 1 }], filtersIdx := mapSet g.filtersIdx r g.Filters.length } := by
      simp [SearchFilterGroup.AddFilter, SearchFilterGroup.GetFilterByValue, hf0, hidx]
    have hrec := addFilters_inc fs
      { g with Filters := g.Filters ++ [{ f0 with Cardinality := 1 }], filtersIdx := mapSet g.filtersIdx r g.Filters.length }
      r g.Filters.length
      (fun f hf => hall f (by simp [hf]))
      (by simpa using mapGet_mapSet_self g.filtersIdx r g.Filters.length)
      (by simp)
    have hlast := listModify_append_last g.Filters { f0 with Cardinality := 1 }
      (fun f => { f with Cardinality := f.Cardinality + (fs.length : Nat) })
    simp only [SearchFilterGroup.AddFilters, hstep, hrec, hlast]
  · rw [List.filter_append]
    have h1 : g.Filters.filter (fun f : SearchFilter => decide (filterValueAsString f.Value = some r)) = [] := by
      refine List.filter_eq_nil_iff.mpr (fun a ha => ?_)
      simpa using hnotin a ha
    have h2 : List.filter (fun f : SearchFilter => decide (filterValueAsString f.Value = some r)) [{ f0 with Cardinality := 1 + (fs.length : Nat) }] = [{ f0 with Cardinality := 1 + (fs.length : Nat) }] := by
      simp [List.filter, hf0]
    rw [h1, h2]
    rfl

/-- Witness for C4: adding three filters with the value of community
`65000:100` to an empty group yields one filter with cardinality 3. -/
theorem addfilter_dedup_cardinality_witness :
    filterValueAsString (FilterValue.community [65000, 100]) = some "65000:100" ∧
    (emptyGroup SearchKeyCommunities).AddFilters
      [{ Cardinality := 7, Name := "a", Value := FilterValue.community [65000, 100] },
       { Cardinality := 0, Name := "b", Value := FilterValue.community [65000, 100] },
       { Cardinality := 5, Name := "c", Value := FilterValue.community [65000, 100] }] =
      some { Key := SearchKeyCommunities,
             Filters := [{ Cardinality := 1 + ((2 : Nat) : Int), Name := "a", Value := FilterValue.community [65000, 100] }],
             filtersIdx := mapSet [] "65000:100" 0 } :=
  ⟨by decide,
   (addfilter_dedup_cardinality (emptyGroup SearchKeyCommunities)
     (FilterValue.community [65000, 100]) "65000:100"
     { Cardinality := 7, Name := "a", Value := FilterValue.community [65000, 100] }
     [{ Cardinality := 0, Name := "b", Value := FilterValue.community [65000, 100] },
      { Cardinality := 5, Name := "c", Value := FilterValue.community [65000, 100] }]
     (by decide) (by decide) (by decide) (by decide)).1⟩

/-- A well-typed ext community has length 3. -/
theorem wellTyped_ext_length (l : ExtCommunity)
    (h : wellTypedV (FilterValue.extCommunity l) = true) : l.length = 3 := by
  unfold wellTypedV at h
  split at h
  case _ => simp_all
  case _ heq =>
    injection heq with heq2
    subst heq2
    rfl
  case _ => simp_all
  case _ hne => simp_all

/-- Within one well-typed kind, `Equal` is defined and is exactly value
equality. -/
theorem equal_good (f g : SearchFilter) (k : VKind)
    (hfk : kindOf f.Value = k) (hfw : wellTypedV f.Value = true)
    (hgk : kindOf g.Value = k) (hgw : wellTypedV g.Value = true) :
    f.Equal g = some (decide (f.Value = g.Value)) := by
  subst hgk
  rcases f with ⟨fc, fn, fv⟩
  rcases g with ⟨gc, gn, gv⟩
  cases fv <;> cases gv <;>
    first
      | simp_all [SearchFilter.Equal, kindOf, wellTypedV, searchFilterCmpInt,
          searchFilterCmpString, searchFilterCmpCommunity, decide_eq_decide]
      | skip
  all_goals rename_i a b
  all_goals have ha3 := wellTyped_ext_length a hfw
  all_goals have hb3 := wellTyped_ext_length b hgw
  all_goals simp [SearchFilter.Equal, searchFilterCmpExtCommunity, ha3, hb3, decide_eq_decide]

/-- Within one well-typed kind, `FindFilter` over a list is `List.find?`
by value equality. -/
theorem findFilterL_good (l : List SearchFilter) (f : SearchFilter) (k : VKind)
    (hl : GoodL k l) (hfk : kindOf f.Value = k) (hfw : wellTypedV f.Value = true) :
    findFilterL l f = some (l.find? (fun g => decide (g.Value = f.Value))) := by
  induction l with
  | nil => rfl
  | cons g rest ih =>
    have hg := hl g (by simp)
    have heq := equal_good g f k hg.1 hg.2 hfk hfw
    by_cases hv : g.Value = f.Value
    · simp [findFilterL, heq, hv, List.find?]
    · have : (decide (g.Value = f.Value)) = false := by simpa using hv
      simp only [findFilterL, heq, this, List.find?]
      exact ih (fun x hx => hl x (by simp [hx]))

/-- One step of `dedupAppendV`. -/
theorem dedupAppendV_cons (acc : List SearchFilter) (f : SearchFilter)
    (rest : List SearchFilter) :
    dedupAppendV acc (f :: rest) =
      dedupAppendV (if acc.any (fun g => decide (g.Value = f.Value)) then acc else acc ++ [f]) rest := rfl

/-- Within one well-typed kind, the `Combine` loop is panic-free and equal
to the pure dedup-append. -/
theorem combineAux_good (lb : List SearchFilter) (acc : List SearchFilter) (k : VKind)
    (hacc : GoodL k acc) (hlb : GoodL k lb) :
    combineFiltersAux acc lb = some (dedupAppendV acc lb) := by
  induction lb generalizing acc with
  | nil => rfl
  | cons f rest ih =>
    have hf := hlb f (by simp)
    have hfind := findFilterL_good acc f k hacc hf.1 hf.2
    have hbool : (acc.find? (fun g => decide (g.Value = f.Value))).isSome =
        acc.any (fun g => decide (g.Value = f.Value)) := by
      rw [Bool.eq_iff_iff, List.find?_isSome, List.any_eq_true]
    have hrest : GoodL k rest := fun x hx => hlb x (by simp [hx])
    by_cases hc : acc.any (fun g => decide (g.Value = f.Value))
    · rw [dedupAppendV_cons, if_pos hc]
      have hstep : combineFiltersAux acc (f :: rest) = combineFiltersAux acc rest := by
        simp [combineFiltersAux, hfind, hbool, hc]
      rw [hstep]
      exact ih acc hacc hrest
    · have hacc2 : GoodL k (acc ++ [f]) := by
        intro x hx
        rcases List.mem_append.mp hx with hx2 | hx2
        · exact hacc x hx2
        · simp at hx2
          subst hx2
          exact hf
      rw [dedupAppendV_cons, if_neg hc]
      have hstep : combineFiltersAux acc (f :: rest) = combineFiltersAux (acc ++ [f]) rest := by
        simp [combineFiltersAux, hfind, hbool, hc]
      rw [hstep]
      exact ih (acc ++ [f]) hacc2 hrest

/-- The values of the dedup-append are exactly the union of both sides'
values. -/
theorem dedupAppendV_mem_value (lb acc : List SearchFilter) (v : FilterValue) :
    (∃ f ∈ dedupAppendV acc lb, f.Value = v) ↔
      ((∃ f ∈ acc, f.Value = v) ∨ (∃ f ∈ lb, f.Value = v)) := by
  induction lb generalizing acc with
  | nil => simp [dedupAppendV]
  | cons f rest ih =>
    rw [dedupAppendV_cons]
    by_cases hc : acc.any (fun g => decide (g.Value = f.Value))
    · rw [if_pos hc, ih]
      obtain ⟨g, hg, hgv⟩ := List.any_eq_true.mp hc
      have hgv2 : g.Value = f.Value := by simpa using hgv
      constructor
      · rintro (h | h)
        · exact Or.inl h
        · obtain ⟨x, hx, hxv⟩ := h
          exact Or.inr ⟨x, by simp [hx], hxv⟩
      · rintro (h | ⟨x, hx, hxv⟩)
        · exact Or.inl h
        · rcases List.mem_cons.mp hx with hx2 | hx2
          · subst hx2
            exact Or.inl ⟨g, hg, hgv2.trans hxv⟩
          · exact Or.inr ⟨x, hx2, hxv⟩
    · rw [if_neg hc, ih]
      constructor
      · rintro (⟨x, hx, hxv⟩ | h)
        · rcases List.mem_append.mp hx with hx2 | hx2
          · exact Or.inl ⟨x, hx2, hxv⟩
          · simp at hx2
            subst hx2
            exact Or.inr ⟨x, by simp, hxv⟩
        · obtain ⟨x, hx, hxv⟩ := h
          exact Or.inr ⟨x, by simp [hx], hxv⟩
      · rintro (⟨x, hx, hxv⟩ | ⟨x, hx, hxv⟩)
        · exact Or.inl ⟨x, by simp [hx], hxv⟩
        · rcases List.mem_cons.mp hx with hx2 | hx2
          · subst hx2
            exact Or.inl ⟨x, by simp, hxv⟩
          · exact Or.inr ⟨x, hx2, hxv⟩

/-- The dedup-append preserves value-distinctness of the accumulator. -/
theorem dedupAppendV_pairwise (lb acc : List SearchFilter)
    (h : acc.Pairwise (fun a b => a.Value ≠ b.Value)) :
    (dedupAppendV acc lb).Pairwise (fun a b => a.Value ≠ b.Value) := by
  induction lb generalizing acc with
  | nil => exact h
  | cons f rest ih =>
    rw [dedupAppendV_cons]
    by_cases hc : acc.any (fun g => decide (g.Value = f.Value))
    · rw [if_pos hc]
      exact ih acc h
    · rw [if_neg hc]
      refine ih (acc ++ [f]) ?_
      rw [List.pairwise_append]
      refine ⟨h, by simp, ?_⟩
      intro a ha b hb
      simp only [List.mem_singleton] at hb
      subst hb
      intro hav
      exact hc (List.any_eq_true.mpr ⟨a, ha, by simpa using hav⟩)

/-- The dedup-append keeps the accumulator verbatim and appends only
right-side filters whose value is new. -/
theorem dedupAppendV_prefix (lb acc : List SearchFilter) :
    ∃ ex, dedupAppendV acc lb = acc ++ ex ∧
      ∀ f ∈ ex, f ∈ lb ∧ ∀ g ∈ acc, g.Value ≠ f.Value := by
  induction lb generalizing acc with
  | nil => exact ⟨[], by simp [dedupAppendV], by simp⟩
  | cons f rest ih =>
    rw [dedupAppendV_cons]
    by_cases hc : acc.any (fun g => decide (g.Value = f.Value))
    · rw [if_pos hc]
      obtain ⟨ex, heq, hex⟩ := ih acc
      exact ⟨ex, heq, fun x hx => ⟨by simp [(hex x hx).1], (hex x hx).2⟩⟩
    · rw [if_neg hc]
      obtain ⟨ex, heq, hex⟩ := ih (acc ++ [f])
      refine ⟨f :: ex, by simp [heq], ?_⟩
      intro x hx
      rcases List.mem_cons.mp hx with hx2 | hx2
      · subst hx2
        refine ⟨by simp, ?_⟩
        intro g hg hgv
        exact hc (List.any_eq_true.mpr ⟨g, hg, by simpa using hgv⟩)
      · refine ⟨by simp [(hex x hx2).1], ?_⟩
        intro g hg
        exact (hex x hx2).2 g (List.mem_append_left _ hg)

/-- Every filter of the dedup-append comes from one of the two sides. -/
theorem dedupAppendV_subset (lb acc : List SearchFilter) :
    ∀ f ∈ dedupAppendV acc lb, f ∈ acc ++ lb := by
  obtain ⟨ex, heq, hex⟩ := dedupAppendV_prefix lb acc
  intro f hf
  rw [heq] at hf
  rcases List.mem_append.mp hf with h | h
  · exact List.mem_append_left _ h
  · exact List.mem_append_right _ (hex f h).1

/-- A well-typed value always has a canonical string. -/
theorem wellTyped_renderable (v : FilterValue) (h : wellTypedV v = true) :
    (filterValueAsString v).isSome = true := by
  cases v <;> simp [filterValueAsString]
  rename_i l
  unfold wellTypedV at h
  split at h
  case _ => simp_all
  case _ heq =>
    injection heq with heq2
    subst heq2
    simp [ExtCommunity.string]
  case _ => simp_all
  case _ => simp_all

/-- Index rebuilding succeeds when every value has a canonical string. -/
theorem buildIdx_isSome (l : List SearchFilter)
    (h : ∀ f ∈ l, (filterValueAsString f.Value).isSome = true) :
    ∀ i m, ∃ m2, buildIdx l i m = some m2 := by
  induction l with
  | nil => exact fun i m => ⟨m, rfl⟩
  | cons f rest ih =>
    intro i m
    obtain ⟨r, hr⟩ := Option.isSome_iff_exists.mp (h f (by simp))
    obtain ⟨m2, hm2⟩ := ih (fun x hx => h x (by simp [hx])) (i + 1) (mapSet m r i)
    exact ⟨m2, by simp [buildIdx, hr, hm2]⟩

/-- One facet position of `Combine`, under the kind/dup hypotheses:
it returns a group satisfying `CombineGroupOK`. -/
theorem combineGroup_ok (ga gb : SearchFilterGroup) (h : CombineHyp ga gb) :
    ∃ gc, combineGroup ga gb = some gc ∧ CombineGroupOK ga gb gc := by
  obtain ⟨⟨k, hgood⟩, hnodup⟩ := h
  have hga : GoodL k ga.Filters := fun f hf => hgood f (List.mem_append_left _ hf)
  have hgb : GoodL k gb.Filters := fun f hf => hgood f (List.mem_append_right _ hf)
  have haux := combineAux_good gb.Filters ga.Filters k hga hgb
  have hrend : ∀ f ∈ dedupAppendV ga.Filters gb.Filters,
      (filterValueAsString f.Value).isSome = true := by
    intro f hf
    exact wellTyped_renderable _ (hgood f (dedupAppendV_subset _ _ f hf)).2
  obtain ⟨m2, hm2⟩ := buildIdx_isSome _ hrend 0 []
  refine ⟨{ Key := ga.Key, Filters := dedupAppendV ga.Filters gb.Filters, filtersIdx := m2 }, ?_, ?_⟩
  · simp [combineGroup, haux, SearchFilterGroup.rebuildIndex, hm2]
  · exact ⟨rfl, fun v => dedupAppendV_mem_value gb.Filters ga.Filters v,
      dedupAppendV_pairwise _ _ hnodup,
      dedupAppendV_prefix gb.Filters ga.Filters, hm2⟩

/-- Claim C2, counterexample: combining a filter set whose communities
group holds an int-valued filter with one whose communities group holds a
Community-valued filter panics (modelled `none`) inside `Contains`/`Equal`
instead of returning the union — `Combine` does not return a filter set
for every pair of inputs. -/
theorem combine_cross_kind_counterexample :
    SearchFilters.Combine
      { NewSearchFilters with communities := { Key := SearchKeyCommunities, Filters := [{ Cardinality := 1, Name := "stray", Value := FilterValue.int 5 }], filtersIdx := [("5", 0)] } }
      { NewSearchFilters with communities := { Key := SearchKeyCommunities, Filters := [{ Cardinality := 1, Name := "1:2", Value := FilterValue.community [1, 2] }], filtersIdx := [("1:2", 0)] } } = none := by
  decide

/-- Claim C2, amended: for filter sets whose corresponding facet groups
hold well-typed values of one shared kind (so no `Equal` call panics, cf.
C1) with the left groups duplicate-free, `Combine` returns a new filter
set whose group at each facet position contains exactly the value-wise
union of the two groups at that position with no duplicate values, keeping
the left copy (hence its label and cardinality) verbatim for values
present in both, with the index rebuilt; the inputs are not mutated (the
model is functional, Go builds fresh groups). -/
theorem combine_union (A B : SearchFilters)
    (h1 : CombineHyp A.sources B.sources) (h2 : CombineHyp A.asns B.asns)
    (h3 : CombineHyp A.communities B.communities)
    (h4 : CombineHyp A.extCommunities B.extCommunities)
    (h5 : CombineHyp A.largeCommunities B.largeCommunities)
    (h6 : CombineHyp A.addrFamily B.addrFamily) :
    ∃ C, A.Combine B = some C ∧
      CombineGroupOK A.sources B.sources C.sources ∧
      CombineGroupOK A.asns B.asns C.asns ∧
      CombineGroupOK A.communities B.communities C.communities ∧
      CombineGroupOK A.extCommunities B.extCommunities C.extCommunities ∧
      CombineGroupOK A.largeCommunities B.largeCommunities C.largeCommunities ∧
      CombineGroupOK A.addrFamily B.addrFamily C.addrFamily := by
  obtain ⟨c1, e1, k1⟩ := combineGroup_ok _ _ h1
  obtain ⟨c2, e2, k2⟩ := combineGroup_ok _ _ h2
  obtain ⟨c3, e3, k3⟩ := combineGroup_ok _ _ h3
  obtain ⟨c4, e4, k4⟩ := combineGroup_ok _ _ h4
  obtain ⟨c5, e5, k5⟩ := combineGroup_ok _ _ h5
  obtain ⟨c6, e6, k6⟩ := combineGroup_ok _ _ h6
  refine ⟨{ sources := c1, asns := c2, communities := c3, extCommunities := c4, largeCommunities := c5, addrFamily := c6 }, ?_, k1, k2, k3, k4, k5, k6⟩
  simp [SearchFilters.Combine, e1, e2, e3, e4, e5, e6]

/-- Witness for C2's amended theorem: two concrete one-facet sets. -/
theorem combine_union_witness :
    (CombineHyp ({ NewSearchFilters with communities := { Key := SearchKeyCommunities, Filters := [{ Cardinality := 1, Name := "1:2", Value := FilterValue.community [1, 2] }], filtersIdx := [("1:2", 0)] } } : SearchFilters).sources ({ NewSearchFilters with communities := { Key := SearchKeyCommunities, Filters := [{ Cardinality := 3, Name := "dup", Value := FilterValue.community [1, 2] }, { Cardinality := 2, Name := "3:4", Value := FilterValue.community [3, 4] }], filtersIdx := [("1:2", 0), ("3:4", 1)] } } : SearchFilters).sources) ∧ (CombineHyp ({ NewSearchFilters with communities := { Key := SearchKeyCommunities, Filters := [{ Cardinality := 1, Name := "1:2", Value := FilterValue.community [1, 2] }], filtersIdx := [("1:2", 0)] } } : SearchFilters).asns ({ NewSearchFilters with communities := { Key := SearchKeyCommunities, Filters := [{ Cardinality := 3, Name := "dup", Value := FilterValue.community [1, 2] }, { Cardinality := 2, Name := "3:4", Value := FilterValue.community [3, 4] }], filtersIdx := [("1:2", 0), ("3:4", 1)] } } : SearchFilters).asns) ∧ (CombineHyp ({ NewSearchFilters with communities := { Key := SearchKeyCommunities, Filters := [{ Cardinality := 1, Name := "1:2", Value := FilterValue.community [1, 2] }], filtersIdx := [("1:2", 0)] } } : SearchFilters).communities ({ NewSearchFilters with communities := { Key := SearchKeyCommunities, Filters := [{ Cardinality := 3, Name := "dup", Value := FilterValue.community [1, 2] }, { Cardinality := 2, Name := "3:4", Value := FilterValue.community [3, 4] }], filtersIdx := [("1:2", 0), ("3:4", 1)] } } : SearchFilters).communities) ∧ (CombineHyp ({ NewSearchFilters with communities := { Key := SearchKeyCommunities, Filters := [{ Cardinality := 1, Name := "1:2", Value := FilterValue.community [1, 2] }], filtersIdx := [("1:2", 0)] } } : SearchFilters).extCommunities ({ NewSearchFilters with communities := { Key := SearchKeyCommunities, Filters := [{ Cardinality := 3, Name := "dup", Value := FilterValue.community [1, 2] }, { Cardinality := 2, Name := "3:4", Value := FilterValue.community [3, 4] }], filtersIdx := [("1:2", 0), ("3:4", 1)] } } : SearchFilters).extCommunities) ∧ (CombineHyp ({ NewSearchFilters with communities := { Key := SearchKeyCommunities, Filters := [{ Cardinality := 1, Name := "1:2", Value := FilterValue.community [1, 2] }], filtersIdx := [("1:2", 0)] } } : SearchFilters).largeCommunities ({ NewSearchFilters with communities := { Key := SearchKeyCommunities, Filters := [{ Cardinality := 3, Name := "dup", Value := FilterValue.community [1, 2] }, { Cardinality := 2, Name := "3:4", Value := FilterValue.community [3, 4] }], filtersIdx := [("1:2", 0), ("3:4", 1)] } } : SearchFilters).largeCommunities) ∧ (CombineHyp ({ NewSearchFilters with communities := { Key := SearchKeyCommunities, Filters := [{ Cardinality := 1, Name := "1:2", Value := FilterValue.community [1, 2] }], filtersIdx := [("1:2", 0)] } } : SearchFilters).addrFamily ({ NewSearchFilters with communities := { Key := SearchKeyCommunities, Filters := [{ Cardinality := 3, Name := "dup", Value := FilterValue.community [1, 2] }, { Cardinality := 2, Name := "3:4", Value := FilterValue.community [3, 4] }], filtersIdx := [("1:2", 0), ("3:4", 1)] } } : SearchFilters).addrFamily) ∧
    (∃ C, SearchFilters.Combine { NewSearchFilters with communities := { Key := SearchKeyCommunities, Filters := [{ Cardinality := 1, Name := "1:2", Value := FilterValue.community [1, 2] }], filtersIdx := [("1:2", 0)] } } { NewSearchFilters with communities := { Key := SearchKeyCommunities, Filters := [{ Cardinality := 3, Name := "dup", Value := FilterValue.community [1, 2] }, { Cardinality := 2, Name := "3:4", Value := FilterValue.community [3, 4] }], filtersIdx := [("1:2", 0), ("3:4", 1)] } } = some C ∧
      CombineGroupOK ({ NewSearchFilters with communities := { Key := SearchKeyCommunities, Filters := [{ Cardinality := 1, Name := "1:2", Value := FilterValue.community [1, 2] }], filtersIdx := [("1:2", 0)] } } : SearchFilters).sources ({ NewSearchFilters with communities := { Key := SearchKeyCommunities, Filters := [{ Cardinality := 3, Name := "dup", Value := FilterValue.community [1, 2] }, { Cardinality := 2, Name := "3:4", Value := FilterValue.community [3, 4] }], filtersIdx := [("1:2", 0), ("3:4", 1)] } } : SearchFilters).sources C.sources ∧
      CombineGroupOK ({ NewSearchFilters with communities := { Key := SearchKeyCommunities, Filters := [{ Cardinality := 1, Name := "1:2", Value := FilterValue.community [1, 2] }], filtersIdx := [("1:2", 0)] } } : SearchFilters).asns ({ NewSearchFilters with communities := { Key := SearchKeyCommunities, Filters := [{ Cardinality := 3, Name := "dup", Value := FilterValue.community [1, 2] }, { Cardinality := 2, Name := "3:4", Value := FilterValue.community [3, 4] }], filtersIdx := [("1:2", 0), ("3:4", 1)] } } : SearchFilters).asns C.asns ∧
      CombineGroupOK ({ NewSearchFilters with communities := { Key := SearchKeyCommunities, Filters := [{ Cardinality := 1, Name := "1:2", Value := FilterValue.community [1, 2] }], filtersIdx := [("1:2", 0)] } } : SearchFilters).communities ({ NewSearchFilters with communities := { Key := SearchKeyCommunities, Filters := [{ Cardinality := 3, Name := "dup", Value := FilterValue.community [1, 2] }, { Cardinality := 2, Name := "3:4", Value := FilterValue.community [3, 4] }], filtersIdx := [("1:2", 0), ("3:4", 1)] } } : SearchFilters).communities C.communities ∧
      CombineGroupOK ({ NewSearchFilters with communities := { Key := SearchKeyCommunities, Filters := [{ Cardinality := 1, Name := "1:2", Value := FilterValue.community [1, 2] }], filtersIdx := [("1:2", 0)] } } : SearchFilters).extCommunities ({ NewSearchFilters with communities := { Key := SearchKeyCommunities, Filters := [{ Cardinality := 3, Name := "dup", Value := FilterValue.community [1, 2] }, { Cardinality := 2, Name := "3:4", Value := FilterValue.community [3, 4] }], filtersIdx := [("1:2", 0), ("3:4", 1)] } } : SearchFilters).extCommunities C.extCommunities ∧
      CombineGroupOK ({ NewSearchFilters with communities := { Key := SearchKeyCommunities, Filters := [{ Cardinality := 1, Name := "1:2", Value := FilterValue.community [1, 2] }], filtersIdx := [("1:2", 0)] } } : SearchFilters).largeCommunities ({ NewSearchFilters with communities := { Key := SearchKeyCommunities, Filters := [{ Cardinality := 3, Name := "dup", Value := FilterValue.community [1, 2] }, { Cardinality := 2, Name := "3:4", Value := FilterValue.community [3, 4] }], filtersIdx := [("1:2", 0), ("3:4", 1)] } } : SearchFilters).largeCommunities C.largeCommunities ∧
      CombineGroupOK ({ NewSearchFilters with communities := { Key := SearchKeyCommunities, Filters := [{ Cardinality := 1, Name := "1:2", Value := FilterValue.community [1, 2] }], filtersIdx := [("1:2", 0)] } } : SearchFilters).addrFamily ({ NewSearchFilters with communities := { Key := SearchKeyCommunities, Filters := [{ Cardinality := 3, Name := "dup", Value := FilterValue.community [1, 2] }, { Cardinality := 2, Name := "3:4", Value := FilterValue.community [3, 4] }], filtersIdx := [("1:2", 0), ("3:4", 1)] } } : SearchFilters).addrFamily C.addrFamily) :=
  ⟨⟨⟨VKind.kstr, by decide⟩, by decide⟩, ⟨⟨VKind.kint, by decide⟩, by decide⟩,
   ⟨⟨VKind.kcomm, by decide⟩, by decide⟩, ⟨⟨VKind.kext, by decide⟩, by decide⟩,
   ⟨⟨VKind.kcomm, by decide⟩, by decide⟩, ⟨⟨VKind.kint, by decide⟩, by decide⟩,
   combine_union { NewSearchFilters with communities := { Key := SearchKeyCommunities, Filters := [{ Cardinality := 1, Name := "1:2", Value := FilterValue.community [1, 2] }], filtersIdx := [("1:2", 0)] } } { NewSearchFilters with communities := { Key := SearchKeyCommunities, Filters := [{ Cardinality := 3, Name := "dup", Value := FilterValue.community [1, 2] }, { Cardinality := 2, Name := "3:4", Value := FilterValue.community [3, 4] }], filtersIdx := [("1:2", 0), ("3:4", 1)] } }
     ⟨⟨VKind.kstr, by decide⟩, by decide⟩ ⟨⟨VKind.kint, by decide⟩, by decide⟩
     ⟨⟨VKind.kcomm, by decide⟩, by decide⟩ ⟨⟨VKind.kext, by decide⟩, by decide⟩
     ⟨⟨VKind.kcomm, by decide⟩, by decide⟩ ⟨⟨VKind.kint, by decide⟩, by decide⟩⟩

/-- Within one well-typed kind, the `Sub` loop is panic-free and is the
filter keeping left values absent on the right. -/
theorem subFilters_good (la lb : List SearchFilter) (k : VKind)
    (hla : GoodL k la) (hlb : GoodL k lb) :
    subFilters la lb = some (la.filter (fun f => !(lb.any (fun g => decide (g.Value = f.Value))))) := by
  induction la with
  | nil => rfl
  | cons f rest ih =>
    have hf := hla f (by simp)
    have hfind := findFilterL_good lb f k hlb hf.1 hf.2
    have hbool : (lb.find? (fun g => decide (g.Value = f.Value))).isSome =
        lb.any (fun g => decide (g.Value = f.Value)) := by
      rw [Bool.eq_iff_iff, List.find?_isSome, List.any_eq_true]
    have hrest := ih (fun x hx => hla x (by simp [hx]))
    by_cases hc : lb.any (fun g => decide (g.Value = f.Value))
    · simp [subFilters, hfind, hbool, hc, List.filter_cons, hrest]
    · simp [subFilters, hfind, hbool, hc, List.filter_cons, hrest]

/-- One facet position of `Sub`, under the kind hypothesis. -/
theorem subGroup_ok (ga gb : SearchFilterGroup) (h : SameKindHyp ga gb) :
    ∃ gc, subGroup ga gb = some gc ∧ SubGroupOK ga gb gc := by
  obtain ⟨k, hgood⟩ := h
  have hga : GoodL k ga.Filters := fun f hf => hgood f (List.mem_append_left _ hf)
  have hgb : GoodL k gb.Filters := fun f hf => hgood f (List.mem_append_right _ hf)
  have haux := subFilters_good ga.Filters gb.Filters k hga hgb
  have hrend : ∀ f ∈ ga.Filters.filter (fun f => !(gb.Filters.any (fun g => decide (g.Value = f.Value)))),
      (filterValueAsString f.Value).isSome = true := by
    intro f hf
    exact wellTyped_renderable _ (hga f (List.mem_of_mem_filter hf)).2
  obtain ⟨m2, hm2⟩ := buildIdx_isSome _ hrend 0 []
  refine ⟨{ Key := ga.Key, Filters := ga.Filters.filter (fun f => !(gb.Filters.any (fun g => decide (g.Value = f.Value)))), filtersIdx := m2 }, ?_, ?_⟩
  · simp [subGroup, haux, SearchFilterGroup.rebuildIndex, hm2]
  · exact ⟨rfl, rfl, hm2⟩

/-- Subtracting a list from itself by value leaves nothing. -/
theorem subSelf_filter_empty (la : List SearchFilter) :
    la.filter (fun f => !(la.any (fun g => decide (g.Value = f.Value)))) = [] := by
  refine List.filter_eq_nil_iff.mpr (fun f hf => ?_)
  have hany : la.any (fun g => decide (g.Value = f.Value)) = true :=
    List.any_eq_true.mpr ⟨f, hf, decide_eq_true rfl⟩
  simp [hany]

/-- Claim C3, counterexample: `Sub` panics (modelled `none`) instead of
producing the difference when the left asns group holds a Community value
and the right asns group an int value — `Equal` aborts cross-kind. -/
theorem sub_cross_kind_counterexample :
    SearchFilters.Sub
      { NewSearchFilters with asns := { Key := SearchKeyASNS, Filters := [{ Cardinality := 1, Name := "odd", Value := FilterValue.community [9, 9] }], filtersIdx := [("9:9", 0)] } }
      { NewSearchFilters with asns := { Key := SearchKeyASNS, Filters := [{ Cardinality := 1, Name := "1", Value := FilterValue.int 1 }], filtersIdx := [("1", 0)] } } = none := by
  decide

/-- Claim C3, amended: for filter sets whose corresponding facet groups
hold well-typed values of one shared kind (so no `Equal` call panics, cf.
C1), `Sub` returns a filter set whose group at each facet position keeps
exactly those left filters whose value is absent from the right group
(with the index rebuilt); in particular `A.Sub(A)` then yields six empty
groups. -/
theorem sub_difference (A B : SearchFilters)
    (h1 : SameKindHyp A.sources B.sources) (h2 : SameKindHyp A.asns B.asns)
    (h3 : SameKindHyp A.communities B.communities)
    (h4 : SameKindHyp A.extCommunities B.extCommunities)
    (h5 : SameKindHyp A.largeCommunities B.largeCommunities)
    (h6 : SameKindHyp A.addrFamily B.addrFamily) :
    (∃ C, A.Sub B = some C ∧
      SubGroupOK A.sources B.sources C.sources ∧
      SubGroupOK A.asns B.asns C.asns ∧
      SubGroupOK A.communities B.communities C.communities ∧
      SubGroupOK A.extCommunities B.extCommunities C.extCommunities ∧
      SubGroupOK A.largeCommunities B.largeCommunities C.largeCommunities ∧
      SubGroupOK A.addrFamily B.addrFamily C.addrFamily) ∧
    (∃ D, A.Sub A = some D ∧
      D.sources.Filters = [] ∧ D.asns.Filters = [] ∧
      D.communities.Filters = [] ∧ D.extCommunities.Filters = [] ∧
      D.largeCommunities.Filters = [] ∧ D.addrFamily.Filters = []) := by
  constructor
  · obtain ⟨c1, e1, k1⟩ := subGroup_ok _ _ h1
    obtain ⟨c2, e2, k2⟩ := subGroup_ok _ _ h2
    obtain ⟨c3, e3, k3⟩ := subGroup_ok _ _ h3
    obtain ⟨c4, e4, k4⟩ := subGroup_ok _ _ h4
    obtain ⟨c5, e5, k5⟩ := subGroup_ok _ _ h5
    obtain ⟨c6, e6, k6⟩ := subGroup_ok _ _ h6
    refine ⟨{ sources := c1, asns := c2, communities := c3, extCommunities := c4, largeCommunities := c5, addrFamily := c6 }, ?_, k1, k2, k3, k4, k5, k6⟩
    simp [SearchFilters.Sub, e1, e2, e3, e4, e5, e6]
  · have hself : ∀ (ga gb : SearchFilterGroup), SameKindHyp ga gb → SameKindHyp ga ga := by
      rintro ga gb ⟨k, hgood⟩
      refine ⟨k, fun f hf => ?_⟩
      rcases List.mem_append.mp hf with hf2 | hf2 <;>
        exact hgood f (List.mem_append_left _ hf2)
    obtain ⟨c1, e1, k1⟩ := subGroup_ok _ _ (hself _ _ h1)
    obtain ⟨c2, e2, k2⟩ := subGroup_ok _ _ (hself _ _ h2)
    obtain ⟨c3, e3, k3⟩ := subGroup_ok _ _ (hself _ _ h3)
    obtain ⟨c4, e4, k4⟩ := subGroup_ok _ _ (hself _ _ h4)
    obtain ⟨c5, e5, k5⟩ := subGroup_ok _ _ (hself _ _ h5)
    obtain ⟨c6, e6, k6⟩ := subGroup_ok _ _ (hself _ _ h6)
    refine ⟨{ sources := c1, asns := c2, communities := c3, extCommunities := c4, largeCommunities := c5, addrFamily := c6 }, ?_, ?_, ?_, ?_, ?_, ?_, ?_⟩
    · simp [SearchFilters.Sub, e1, e2, e3, e4, e5, e6]
    · exact k1.2.1.trans (subSelf_filter_empty _)
    · exact k2.2.1.trans (subSelf_filter_empty _)
    · exact k3.2.1.trans (subSelf_filter_empty _)
    · exact k4.2.1.trans (subSelf_filter_empty _)
    · exact k5.2.1.trans (subSelf_filter_empty _)
    · exact k6.2.1.trans (subSelf_filter_empty _)

/-- Witness for C3's amended theorem: concrete asns-only sets. -/
theorem sub_difference_witness :
    (SameKindHyp ({ NewSearchFilters with asns := { Key := SearchKeyASNS, Filters := [{ Cardinality := 2, Name := "a1", Value := FilterValue.int 64512 }, { Cardinality := 1, Name := "a2", Value := FilterValue.int 64513 }], filtersIdx := [("64512", 0), ("64513", 1)] } } : SearchFilters).sources ({ NewSearchFilters with asns := { Key := SearchKeyASNS, Filters := [{ Cardinality := 9, Name := "b1", Value := FilterValue.int 64513 }], filtersIdx := [("64513", 0)] } } : SearchFilters).sources) ∧ (SameKindHyp ({ NewSearchFilters with asns := { Key := SearchKeyASNS, Filters := [{ Cardinality := 2, Name := "a1", Value := FilterValue.int 64512 }, { Cardinality := 1, Name := "a2", Value := FilterValue.int 64513 }], filtersIdx := [("64512", 0), ("64513", 1)] } } : SearchFilters).asns ({ NewSearchFilters with asns := { Key := SearchKeyASNS, Filters := [{ Cardinality := 9, Name := "b1", Value := FilterValue.int 64513 }], filtersIdx := [("64513", 0)] } } : SearchFilters).asns) ∧ (SameKindHyp ({ NewSearchFilters with asns := { Key := SearchKeyASNS, Filters := [{ Cardinality := 2, Name := "a1", Value := FilterValue.int 64512 }, { Cardinality := 1, Name := "a2", Value := FilterValue.int 64513 }], filtersIdx := [("64512", 0), ("64513", 1)] } } : SearchFilters).communities ({ NewSearchFilters with asns := { Key := SearchKeyASNS, Filters := [{ Cardinality := 9, Name := "b1", Value := FilterValue.int 64513 }], filtersIdx := [("64513", 0)] } } : SearchFilters).communities) ∧ (SameKindHyp ({ NewSearchFilters with asns := { Key := SearchKeyASNS, Filters := [{ Cardinality := 2, Name := "a1", Value := FilterValue.int 64512 }, { Cardinality := 1, Name := "a2", Value := FilterValue.int 64513 }], filtersIdx := [("64512", 0), ("64513", 1)] } } : SearchFilters).extCommunities ({ NewSearchFilters with asns := { Key := SearchKeyASNS, Filters := [{ Cardinality := 9, Name := "b1", Value := FilterValue.int 64513 }], filtersIdx := [("64513", 0)] } } : SearchFilters).extCommunities) ∧ (SameKindHyp ({ NewSearchFilters with asns := { Key := SearchKeyASNS, Filters := [{ Cardinality := 2, Name := "a1", Value := FilterValue.int 64512 }, { Cardinality := 1, Name := "a2", Value := FilterValue.int 64513 }], filtersIdx := [("64512", 0), ("64513", 1)] } } : SearchFilters).largeCommunities ({ NewSearchFilters with asns := { Key := SearchKeyASNS, Filters := [{ Cardinality := 9, Name := "b1", Value := FilterValue.int 64513 }], filtersIdx := [("64513", 0)] } } : SearchFilters).largeCommunities) ∧ (SameKindHyp ({ NewSearchFilters with asns := { Key := SearchKeyASNS, Filters := [{ Cardinality := 2, Name := "a1", Value := FilterValue.int 64512 }, { Cardinality := 1, Name := "a2", Value := FilterValue.int 64513 }], filtersIdx := [("64512", 0), ("64513", 1)] } } : SearchFilters).addrFamily ({ NewSearchFilters with asns := { Key := SearchKeyASNS, Filters := [{ Cardinality := 9, Name := "b1", Value := FilterValue.int 64513 }], filtersIdx := [("64513", 0)] } } : SearchFilters).addrFamily) ∧
    ((∃ C, SearchFilters.Sub { NewSearchFilters with asns := { Key := SearchKeyASNS, Filters := [{ Cardinality := 2, Name := "a1", Value := FilterValue.int 64512 }, { Cardinality := 1, Name := "a2", Value := FilterValue.int 64513 }], filtersIdx := [("64512", 0), ("64513", 1)] } } { NewSearchFilters with asns := { Key := SearchKeyASNS, Filters := [{ Cardinality := 9, Name := "b1", Value := FilterValue.int 64513 }], filtersIdx := [("64513", 0)] } } = some C ∧
      SubGroupOK ({ NewSearchFilters with asns := { Key := SearchKeyASNS, Filters := [{ Cardinality := 2, Name := "a1", Value := FilterValue.int 64512 }, { Cardinality := 1, Name := "a2", Value := FilterValue.int 64513 }], filtersIdx := [("64512", 0), ("64513", 1)] } } : SearchFilters).sources ({ NewSearchFilters with asns := { Key := SearchKeyASNS, Filters := [{ Cardinality := 9, Name := "b1", Value := FilterValue.int 64513 }], filtersIdx := [("64513", 0)] } } : SearchFilters).sources C.sources ∧
      SubGroupOK ({ NewSearchFilters with asns := { Key := SearchKeyASNS, Filters := [{ Cardinality := 2, Name := "a1", Value := FilterValue.int 64512 }, { Cardinality := 1, Name := "a2", Value := FilterValue.int 64513 }], filtersIdx := [("64512", 0), ("64513", 1)] } } : SearchFilters).asns ({ NewSearchFilters with asns := { Key := SearchKeyASNS, Filters := [{ Cardinality := 9, Name := "b1", Value := FilterValue.int 64513 }], filtersIdx := [("64513", 0)] } } : SearchFilters).asns C.asns ∧
      SubGroupOK ({ NewSearchFilters with asns := { Key := SearchKeyASNS, Filters := [{ Cardinality := 2, Name := "a1", Value := FilterValue.int 64512 }, { Cardinality := 1, Name := "a2", Value := FilterValue.int 64513 }], filtersIdx := [("64512", 0), ("64513", 1)] } } : SearchFilters).communities ({ NewSearchFilters with asns := { Key := SearchKeyASNS, Filters := [{ Cardinality := 9, Name := "b1", Value := FilterValue.int 64513 }], filtersIdx := [("64513", 0)] } } : SearchFilters).communities C.communities ∧
      SubGroupOK ({ NewSearchFilters with asns := { Key := SearchKeyASNS, Filters := [{ Cardinality := 2, Name := "a1", Value := FilterValue.int 64512 }, { Cardinality := 1, Name := "a2", Value := FilterValue.int 64513 }], filtersIdx := [("64512", 0), ("64513", 1)] } } : SearchFilters).extCommunities ({ NewSearchFilters with asns := { Key := SearchKeyASNS, Filters := [{ Cardinality := 9, Name := "b1", Value := FilterValue.int 64513 }], filtersIdx := [("64513", 0)] } } : SearchFilters).extCommunities C.extCommunities ∧
      SubGroupOK ({ NewSearchFilters with asns := { Key := SearchKeyASNS, Filters := [{ Cardinality := 2, Name := "a1", Value := FilterValue.int 64512 }, { Cardinality := 1, Name := "a2", Value := FilterValue.int 64513 }], filtersIdx := [("64512", 0), ("64513", 1)] } } : SearchFilters).largeCommunities ({ NewSearchFilters with asns := { Key := SearchKeyASNS, Filters := [{ Cardinality := 9, Name := "b1", Value := FilterValue.int 64513 }], filtersIdx := [("64513", 0)] } } : SearchFilters).largeCommunities C.largeCommunities ∧
      SubGroupOK ({ NewSearchFilters with asns := { Key := SearchKeyASNS, Filters := [{ Cardinality := 2, Name := "a1", Value := FilterValue.int 64512 }, { Cardinality := 1, Name := "a2", Value := FilterValue.int 64513 }], filtersIdx := [("64512", 0), ("64513", 1)] } } : SearchFilters).addrFamily ({ NewSearchFilters with asns := { Key := SearchKeyASNS, Filters := [{ Cardinality := 9, Name := "b1", Value := FilterValue.int 64513 }], filtersIdx := [("64513", 0)] } } : SearchFilters).addrFamily C.addrFamily) ∧
    (∃ D, SearchFilters.Sub { NewSearchFilters with asns := { Key := SearchKeyASNS, Filters := [{ Cardinality := 2, Name := "a1", Value := FilterValue.int 64512 }, { Cardinality := 1, Name := "a2", Value := FilterValue.int 64513 }], filtersIdx := [("64512", 0), ("64513", 1)] } } { NewSearchFilters with asns := { Key := SearchKeyASNS, Filters := [{ Cardinality := 2, Name := "a1", Value := FilterValue.int 64512 }, { Cardinality := 1, Name := "a2", Value := FilterValue.int 64513 }], filtersIdx := [("64512", 0), ("64513", 1)] } } = some D ∧
      D.sources.Filters = [] ∧ D.asns.Filters = [] ∧
      D.communities.Filters = [] ∧ D.extCommunities.Filters = [] ∧
      D.largeCommunities.Filters = [] ∧ D.addrFamily.Filters = [])) :=
  ⟨⟨VKind.kstr, by decide⟩, ⟨VKind.kint, by decide⟩, ⟨VKind.kcomm, by decide⟩,
   ⟨VKind.kext, by decide⟩, ⟨VKind.kcomm, by decide⟩, ⟨VKind.kint, by decide⟩,
   sub_difference { NewSearchFilters with asns := { Key := SearchKeyASNS, Filters := [{ Cardinality := 2, Name := "a1", Value := FilterValue.int 64512 }, { Cardinality := 1, Name := "a2", Value := FilterValue.int 64513 }], filtersIdx := [("64512", 0), ("64513", 1)] } } { NewSearchFilters with asns := { Key := SearchKeyASNS, Filters := [{ Cardinality := 9, Name := "b1", Value := FilterValue.int 64513 }], filtersIdx := [("64513", 0)] } }
     ⟨VKind.kstr, by decide⟩ ⟨VKind.kint, by decide⟩ ⟨VKind.kcomm, by decide⟩
     ⟨VKind.kext, by decide⟩ ⟨VKind.kcomm, by decide⟩ ⟨VKind.kint, by decide⟩⟩

/-- Within one well-typed kind, the `MergeProperties` loop is panic-free
and maps each left filter to one taking name/cardinality from its first
value-equal counterpart on the right, if any. -/
theorem mergeFilters_good (la lb : List SearchFilter) (k : VKind)
    (hla : GoodL k la) (hlb : GoodL k lb) :
    mergeFilters la lb = some (la.map (fun f =>
      match lb.find? (fun g => decide (g.Value = f.Value)) with
      | some o => { f with Name := o.Name, Cardinality := o.Cardinality }
      | none => f)) := by
  induction la with
  | nil => rfl
  | cons f rest ih =>
    have hf := hla f (by simp)
    have hfind := findFilterL_good lb f k hlb hf.1 hf.2
    have hrest := ih (fun x hx => hla x (by simp [hx]))
    simp [mergeFilters, hfind, hrest]

/-- The merged filter keeps its value. -/
theorem mergeFilters_value (lb : List SearchFilter) (f : SearchFilter) :
    (match lb.find? (fun g : SearchFilter => decide (g.Value = f.Value)) with
      | some o => { f with Name := o.Name, Cardinality := o.Cardinality }
      | none => f).Value = f.Value := by
  cases h : lb.find? (fun g : SearchFilter => decide (g.Value = f.Value)) <;> simp [h]

/-- One facet position of `MergeProperties`, under the kind hypothesis. -/
theorem mergeGroup_ok (ga gb : SearchFilterGroup) (h : SameKindHyp ga gb) :
    ∃ gc, mergeGroup ga gb = some gc ∧ MergeGroupOK ga gb gc := by
  obtain ⟨k, hgood⟩ := h
  have hga : GoodL k ga.Filters := fun f hf => hgood f (List.mem_append_left _ hf)
  have hgb : GoodL k gb.Filters := fun f hf => hgood f (List.mem_append_right _ hf)
  have haux := mergeFilters_good ga.Filters gb.Filters k hga hgb
  refine ⟨{ ga with Filters := ga.Filters.map (fun f =>
      match gb.Filters.find? (fun g => decide (g.Value = f.Value)) with
      | some o => { f with Name := o.Name, Cardinality := o.Cardinality }
      | none => f) }, ?_, rfl, rfl, rfl, ?_⟩
  · simp [mergeGroup, haux]
  · rw [List.map_map]
    refine List.map_congr_left (fun f hf => ?_)
    exact mergeFilters_value gb.Filters f

/-- Claim C8, counterexample: `MergeProperties` panics (modelled `none`)
when the left large-communities group holds a Community value and the
right one a string value — `FindFilter`/`Equal` aborts cross-kind instead
of leaving the filter unchanged. -/
theorem merge_cross_kind_counterexample :
    SearchFilters.MergeProperties
      { NewSearchFilters with largeCommunities := { Key := SearchKeyLargeCommunities, Filters := [{ Cardinality := 1, Name := "1:2:3", Value := FilterValue.community [1, 2, 3] }], filtersIdx := [("1:2:3", 0)] } }
      { NewSearchFilters with largeCommunities := { Key := SearchKeyLargeCommunities, Filters := [{ Cardinality := 4, Name := "odd", Value := FilterValue.str "x" }], filtersIdx := [("x", 0)] } } = none := by
  decide

/-- Claim C8, amended: for filter sets whose corresponding facet groups
hold well-typed values of one shared kind (so no `Equal` call panics, cf.
C1), `MergeProperties` overwrites, for every left filter with a
value-equal counterpart in the corresponding right group, its name and
cardinality with the (first) counterpart's; filters without a counterpart
are unchanged; each group keeps its key, its index and its value sequence,
and the right set is read-only. -/
theorem merge_properties (A B : SearchFilters)
    (h1 : SameKindHyp A.sources B.sources) (h2 : SameKindHyp A.asns B.asns)
    (h3 : SameKindHyp A.communities B.communities)
    (h4 : SameKindHyp A.extCommunities B.extCommunities)
    (h5 : SameKindHyp A.largeCommunities B.largeCommunities)
    (h6 : SameKindHyp A.addrFamily B.addrFamily) :
    ∃ C, A.MergeProperties B = some C ∧
      MergeGroupOK A.sources B.sources C.sources ∧
      MergeGroupOK A.asns B.asns C.asns ∧
      MergeGroupOK A.communities B.communities C.communities ∧
      MergeGroupOK A.extCommunities B.extCommunities C.extCommunities ∧
      MergeGroupOK A.largeCommunities B.largeCommunities C.largeCommunities ∧
      MergeGroupOK A.addrFamily B.addrFamily C.addrFamily := by
  obtain ⟨c1, e1, k1⟩ := mergeGroup_ok _ _ h1
  obtain ⟨c2, e2, k2⟩ := mergeGroup_ok _ _ h2
  obtain ⟨c3, e3, k3⟩ := mergeGroup_ok _ _ h3
  obtain ⟨c4, e4, k4⟩ := mergeGroup_ok _ _ h4
  obtain ⟨c5, e5, k5⟩ := mergeGroup_ok _ _ h5
  obtain ⟨c6, e6, k6⟩ := mergeGroup_ok _ _ h6
  refine ⟨{ sources := c1, asns := c2, communities := c3, extCommunities := c4, largeCommunities := c5, addrFamily := c6 }, ?_, k1, k2, k3, k4, k5, k6⟩
  simp [SearchFilters.MergeProperties, e1, e2, e3, e4, e5, e6]

/-- Witness for C8's amended theorem: a request-parsed ext-communities
set (blank labels, zero counts) merged with an aggregate one. -/
theorem merge_properties_witness :
    (SameKindHyp ({ NewSearchFilters with extCommunities := { Key := SearchKeyExtCommunities, Filters := [{ Cardinality := 0, Name := "", Value := FilterValue.extCommunity [ExtElem.s "ro", ExtElem.i 1, ExtElem.i 2] }, { Cardinality := 0, Name := "", Value := FilterValue.extCommunity [ExtElem.s "rt", ExtElem.i 3, ExtElem.i 4] }], filtersIdx := [("ro:1:2", 0), ("rt:3:4", 1)] } } : SearchFilters).sources ({ NewSearchFilters with extCommunities := { Key := SearchKeyExtCommunities, Filters := [{ Cardinality := 17, Name := "route origin", Value := FilterValue.extCommunity [ExtElem.s "ro", ExtElem.i 1, ExtElem.i 2] }], filtersIdx := [("ro:1:2", 0)] } } : SearchFilters).sources) ∧ (SameKindHyp ({ NewSearchFilters with extCommunities := { Key := SearchKeyExtCommunities, Filters := [{ Cardinality := 0, Name := "", Value := FilterValue.extCommunity [ExtElem.s "ro", ExtElem.i 1, ExtElem.i 2] }, { Cardinality := 0, Name := "", Value := FilterValue.extCommunity [ExtElem.s "rt", ExtElem.i 3, ExtElem.i 4] }], filtersIdx := [("ro:1:2", 0), ("rt:3:4", 1)] } } : SearchFilters).asns ({ NewSearchFilters with extCommunities := { Key := SearchKeyExtCommunities, Filters := [{ Cardinality := 17, Name := "route origin", Value := FilterValue.extCommunity [ExtElem.s "ro", ExtElem.i 1, ExtElem.i 2] }], filtersIdx := [("ro:1:2", 0)] } } : SearchFilters).asns) ∧ (SameKindHyp ({ NewSearchFilters with extCommunities := { Key := SearchKeyExtCommunities, Filters := [{ Cardinality := 0, Name := "", Value := FilterValue.extCommunity [ExtElem.s "ro", ExtElem.i 1, ExtElem.i 2] }, { Cardinality := 0, Name := "", Value := FilterValue.extCommunity [ExtElem.s "rt", ExtElem.i 3, ExtElem.i 4] }], filtersIdx := [("ro:1:2", 0), ("rt:3:4", 1)] } } : SearchFilters).communities ({ NewSearchFilters with extCommunities := { Key := SearchKeyExtCommunities, Filters := [{ Cardinality := 17, Name := "route origin", Value := FilterValue.extCommunity [ExtElem.s "ro", ExtElem.i 1, ExtElem.i 2] }], filtersIdx := [("ro:1:2", 0)] } } : SearchFilters).communities) ∧ (SameKindHyp ({ NewSearchFilters with extCommunities := { Key := SearchKeyExtCommunities, Filters := [{ Cardinality := 0, Name := "", Value := FilterValue.extCommunity [ExtElem.s "ro", ExtElem.i 1, ExtElem.i 2] }, { Cardinality := 0, Name := "", Value := FilterValue.extCommunity [ExtElem.s "rt", ExtElem.i 3, ExtElem.i 4] }], filtersIdx := [("ro:1:2", 0), ("rt:3:4", 1)] } } : SearchFilters).extCommunities ({ NewSearchFilters with extCommunities := { Key := SearchKeyExtCommunities, Filters := [{ Cardinality := 17, Name := "route origin", Value := FilterValue.extCommunity [ExtElem.s "ro", ExtElem.i 1, ExtElem.i 2] }], filtersIdx := [("ro:1:2", 0)] } } : SearchFilters).extCommunities) ∧ (SameKindHyp ({ NewSearchFilters with extCommunities := { Key := SearchKeyExtCommunities, Filters := [{ Cardinality := 0, Name := "", Value := FilterValue.extCommunity [ExtElem.s "ro", ExtElem.i 1, ExtElem.i 2] }, { Cardinality := 0, Name := "", Value := FilterValue.extCommunity [ExtElem.s "rt", ExtElem.i 3, ExtElem.i 4] }], filtersIdx := [("ro:1:2", 0), ("rt:3:4", 1)] } } : SearchFilters).largeCommunities ({ NewSearchFilters with extCommunities := { Key := SearchKeyExtCommunities, Filters := [{ Cardinality := 17, Name := "route origin", Value := FilterValue.extCommunity [ExtElem.s "ro", ExtElem.i 1, ExtElem.i 2] }], filtersIdx := [("ro:1:2", 0)] } } : SearchFilters).largeCommunities) ∧ (SameKindHyp ({ NewSearchFilters with extCommunities := { Key := SearchKeyExtCommunities, Filters := [{ Cardinality := 0, Name := "", Value := FilterValue.extCommunity [ExtElem.s "ro", ExtElem.i 1, ExtElem.i 2] }, { Cardinality := 0, Name := "", Value := FilterValue.extCommunity [ExtElem.s "rt", ExtElem.i 3, ExtElem.i 4] }], filtersIdx := [("ro:1:2", 0), ("rt:3:4", 1)] } } : SearchFilters).addrFamily ({ NewSearchFilters with extCommunities := { Key := SearchKeyExtCommunities, Filters := [{ Cardinality := 17, Name := "route origin", Value := FilterValue.extCommunity [ExtElem.s "ro", ExtElem.i 1, ExtElem.i 2] }], filtersIdx := [("ro:1:2", 0)] } } : SearchFilters).addrFamily) ∧
    (∃ C, SearchFilters.MergeProperties { NewSearchFilters with extCommunities := { Key := SearchKeyExtCommunities, Filters := [{ Cardinality := 0, Name := "", Value := FilterValue.extCommunity [ExtElem.s "ro", ExtElem.i 1, ExtElem.i 2] }, { Cardinality := 0, Name := "", Value := FilterValue.extCommunity [ExtElem.s "rt", ExtElem.i 3, ExtElem.i 4] }], filtersIdx := [("ro:1:2", 0), ("rt:3:4", 1)] } } { NewSearchFilters with extCommunities := { Key := SearchKeyExtCommunities, Filters := [{ Cardinality := 17, Name := "route origin", Value := FilterValue.extCommunity [ExtElem.s "ro", ExtElem.i 1, ExtElem.i 2] }], filtersIdx := [("ro:1:2", 0)] } } = some C ∧
      MergeGroupOK ({ NewSearchFilters with extCommunities := { Key := SearchKeyExtCommunities, Filters := [{ Cardinality := 0, Name := "", Value := FilterValue.extCommunity [ExtElem.s "ro", ExtElem.i 1, ExtElem.i 2] }, { Cardinality := 0, Name := "", Value := FilterValue.extCommunity [ExtElem.s "rt", ExtElem.i 3, ExtElem.i 4] }], filtersIdx := [("ro:1:2", 0), ("rt:3:4", 1)] } } : SearchFilters).sources ({ NewSearchFilters with extCommunities := { Key := SearchKeyExtCommunities, Filters := [{ Cardinality := 17, Name := "route origin", Value := FilterValue.extCommunity [ExtElem.s "ro", ExtElem.i 1, ExtElem.i 2] }], filtersIdx := [("ro:1:2", 0)] } } : SearchFilters).sources C.sources ∧
      MergeGroupOK ({ NewSearchFilters with extCommunities := { Key := SearchKeyExtCommunities, Filters := [{ Cardinality := 0, Name := "", Value := FilterValue.extCommunity [ExtElem.s "ro", ExtElem.i 1, ExtElem.i 2] }, { Cardinality := 0, Name := "", Value := FilterValue.extCommunity [ExtElem.s "rt", ExtElem.i 3, ExtElem.i 4] }], filtersIdx := [("ro:1:2", 0), ("rt:3:4", 1)] } } : SearchFilters).asns ({ NewSearchFilters with extCommunities := { Key := SearchKeyExtCommunities, Filters := [{ Cardinality := 17, Name := "route origin", Value := FilterValue.extCommunity [ExtElem.s "ro", ExtElem.i 1, ExtElem.i 2] }], filtersIdx := [("ro:1:2", 0)] } } : SearchFilters).asns C.asns ∧
      MergeGroupOK ({ NewSearchFilters with extCommunities := { Key := SearchKeyExtCommunities, Filters := [{ Cardinality := 0, Name := "", Value := FilterValue.extCommunity [ExtElem.s "ro", ExtElem.i 1, ExtElem.i 2] }, { Cardinality := 0, Name := "", Value := FilterValue.extCommunity [ExtElem.s "rt", ExtElem.i 3, ExtElem.i 4] }], filtersIdx := [("ro:1:2", 0), ("rt:3:4", 1)] } } : SearchFilters).communities ({ NewSearchFilters with extCommunities := { Key := SearchKeyExtCommunities, Filters := [{ Cardinality := 17, Name := "route origin", Value := FilterValue.extCommunity [ExtElem.s "ro", ExtElem.i 1, ExtElem.i 2] }], filtersIdx := [("ro:1:2", 0)] } } : SearchFilters).communities C.communities ∧
      MergeGroupOK ({ NewSearchFilters with extCommunities := { Key := SearchKeyExtCommunities, Filters := [{ Cardinality := 0, Name := "", Value := FilterValue.extCommunity [ExtElem.s "ro", ExtElem.i 1, ExtElem.i 2] }, { Cardinality := 0, Name := "", Value := FilterValue.extCommunity [ExtElem.s "rt", ExtElem.i 3, ExtElem.i 4] }], filtersIdx := [("ro:1:2", 0), ("rt:3:4", 1)] } } : SearchFilters).extCommunities ({ NewSearchFilters with extCommunities := { Key := SearchKeyExtCommunities, Filters := [{ Cardinality := 17, Name := "route origin", Value := FilterValue.extCommunity [ExtElem.s "ro", ExtElem.i 1, ExtElem.i 2] }], filtersIdx := [("ro:1:2", 0)] } } : SearchFilters).extCommunities C.extCommunities ∧
      MergeGroupOK ({ NewSearchFilters with extCommunities := { Key := SearchKeyExtCommunities, Filters := [{ Cardinality := 0, Name := "", Value := FilterValue.extCommunity [ExtElem.s "ro", ExtElem.i 1, ExtElem.i 2] }, { Cardinality := 0, Name := "", Value := FilterValue.extCommunity [ExtElem.s "rt", ExtElem.i 3, ExtElem.i 4] }], filtersIdx := [("ro:1:2", 0), ("rt:3:4", 1)] } } : SearchFilters).largeCommunities ({ NewSearchFilters with extCommunities := { Key := SearchKeyExtCommunities, Filters := [{ Cardinality := 17, Name := "route origin", Value := FilterValue.extCommunity [ExtElem.s "ro", ExtElem.i 1, ExtElem.i 2] }], filtersIdx := [("ro:1:2", 0)] } } : SearchFilters).largeCommunities C.largeCommunities ∧
      MergeGroupOK ({ NewSearchFilters with extCommunities := { Key := SearchKeyExtCommunities, Filters := [{ Cardinality := 0, Name := "", Value := FilterValue.extCommunity [ExtElem.s "ro", ExtElem.i 1, ExtElem.i 2] }, { Cardinality := 0, Name := "", Value := FilterValue.extCommunity [ExtElem.s "rt", ExtElem.i 3, ExtElem.i 4] }], filtersIdx := [("ro:1:2", 0), ("rt:3:4", 1)] } } : SearchFilters).addrFamily ({ NewSearchFilters with extCommunities := { Key := SearchKeyExtCommunities, Filters := [{ Cardinality := 17, Name := "route origin", Value := FilterValue.extCommunity [ExtElem.s "ro", ExtElem.i 1, ExtElem.i 2] }], filtersIdx := [("ro:1:2", 0)] } } : SearchFilters).addrFamily C.addrFamily) :=
  ⟨⟨VKind.kstr, by decide⟩, ⟨VKind.kint, by decide⟩, ⟨VKind.kcomm, by decide⟩,
   ⟨VKind.kext, by decide⟩, ⟨VKind.kcomm, by decide⟩, ⟨VKind.kint, by decide⟩,
   merge_properties { NewSearchFilters with extCommunities := { Key := SearchKeyExtCommunities, Filters := [{ Cardinality := 0, Name := "", Value := FilterValue.extCommunity [ExtElem.s "ro", ExtElem.i 1, ExtElem.i 2] }, { Cardinality := 0, Name := "", Value := FilterValue.extCommunity [ExtElem.s "rt", ExtElem.i 3, ExtElem.i 4] }], filtersIdx := [("ro:1:2", 0), ("rt:3:4", 1)] } } { NewSearchFilters with extCommunities := { Key := SearchKeyExtCommunities, Filters := [{ Cardinality := 17, Name := "route origin", Value := FilterValue.extCommunity [ExtElem.s "ro", ExtElem.i 1, ExtElem.i 2] }], filtersIdx := [("ro:1:2", 0)] } }
     ⟨VKind.kstr, by decide⟩ ⟨VKind.kint, by decide⟩ ⟨VKind.kcomm, by decide⟩
     ⟨VKind.kext, by decide⟩ ⟨VKind.kcomm, by decide⟩ ⟨VKind.kint, by decide⟩⟩

/-- A `#`-prefixed token has the prefix. -/
theorem goHasPrefix_hash (text : String) :
    goHasPrefixChar '#' ("#" ++ text) = true := by
  simp [goHasPrefixChar, String.data_append]

/-- Dropping the marker of a `#`-prefixed token gives back the text. -/
theorem goDrop1_hash (text : String) : goDrop1 ("#" ++ text) = text := by
  simp [goDrop1, String.data_append]

/-- Successful ext-community parses produce the `[tag, int, int]` shape. -/
theorem parseExtCommunityValue_shape (text : String) (f : SearchFilter)
    (h : parseExtCommunityValue text = Except.ok f) :
    ∃ tag x y, f = { Cardinality := 0, Name := tag ++ ":" ++ toString x ++ ":" ++ toString y, Value := FilterValue.extCommunity [ExtElem.s tag, ExtElem.i x, ExtElem.i y] } := by
  unfold parseExtCommunityValue at h
  split at h
  case _ tag a b =>
    split at h
    case _ x y hx hy =>
      injection h with h2
      exact ⟨_, _, _, h2.symm⟩
    case _ => cases h
  case _ => cases h

/-- Successful community parses carry a Community value with its
canonical string as name. -/
theorem parseCommunityValue_shape (text : String) (f : SearchFilter)
    (h : parseCommunityValue text = Except.ok f) :
    ∃ comm, f = { Cardinality := 0, Name := Community.string comm, Value := FilterValue.community comm } := by
  unfold parseCommunityValue at h
  split at h
  case _ comm hc =>
    injection h with h2
    exact ⟨_, h2.symm⟩
  case _ => cases h

/-- Tokens without the `#` marker do not influence `FiltersFromTokens`. -/
theorem filtersFromTokensAux_filter (ts : List String) (s : SearchFilters) :
    filtersFromTokensAux s ts =
      filtersFromTokensAux s (ts.filter (fun t => goHasPrefixChar '#' t)) := by
  induction ts generalizing s with
  | nil => rfl
  | cons t rest ih =>
    rw [List.filter_cons]
    by_cases hp : goHasPrefixChar '#' t
    · rw [if_pos hp]
      simp only [filtersFromTokensAux, hp, if_true]
      cases hParse : parseCommunityFilterText (goDrop1 t) with
      | error e => rfl
      | ok kf =>
        cases hAdd : s.addFilterToGroup kf.1 kf.2 with
        | none => simp [hAdd]
        | some s2 => simp [hAdd, ih s2]
    · rw [if_neg hp]
      simp only [filtersFromTokensAux, hp]
      exact ih s

/-- `FiltersFromTokens` on a single marked token. -/
theorem filtersFromTokens_single (text : String) :
    FiltersFromTokens ["#" ++ text] =
      (match parseCommunityFilterText text with
        | Except.error e => some (Except.error e)
        | Except.ok kf =>
          match NewSearchFilters.addFilterToGroup kf.1 kf.2 with
          | none => none
          | some s2 => some (Except.ok s2)) := by
  simp only [FiltersFromTokens, filtersFromTokensAux, goHasPrefix_hash,
    goDrop1_hash, if_true]
  cases hParse : parseCommunityFilterText text with
  | error e => rfl
  | ok kf =>
    cases hAdd : NewSearchFilters.addFilterToGroup kf.1 kf.2 <;> simp [hAdd]

/-- A parse error on a marked token fails the whole token list. -/
theorem filtersFromTokens_err (text : String) (rest : List String) (e : String)
    (h : parseCommunityFilterText text = Except.error e) :
    FiltersFromTokens (("#" ++ text) :: rest) = some (Except.error e) := by
  simp only [FiltersFromTokens, filtersFromTokensAux, goHasPrefix_hash,
    goDrop1_hash, if_true, h]

/-- Adding a well-shaped ext-community filter to a fresh filter set. -/
theorem addFilterToGroup_ext (tag : String) (x y : Int) :
    NewSearchFilters.addFilterToGroup SearchKeyExtCommunities
      { Cardinality := 0, Name := tag ++ ":" ++ toString x ++ ":" ++ toString y, Value := FilterValue.extCommunity [ExtElem.s tag, ExtElem.i x, ExtElem.i y] } =
    some { NewSearchFilters with extCommunities := { Key := SearchKeyExtCommunities, Filters := [{ Cardinality := 1, Name := tag ++ ":" ++ toString x ++ ":" ++ toString y, Value := FilterValue.extCommunity [ExtElem.s tag, ExtElem.i x, ExtElem.i y] }], filtersIdx := mapSet [] (tag ++ ":" ++ toString x ++ ":" ++ toString y) 0 } } := by
  simp [SearchFilters.addFilterToGroup, SearchKeyExtCommunities, SearchKeySources,
    SearchKeyASNS, SearchKeyCommunities, SearchKeyLargeCommunities, SearchKeyAddrFamily,
    SearchFilterGroup.AddFilter, SearchFilterGroup.GetFilterByValue,
    filterValueAsString, ExtCommunity.string, NewSearchFilters, emptyGroup, mapGet?]

/-- Adding a community filter to a fresh filter set (standard facet). -/
theorem addFilterToGroup_comm (comm : Community) :
    NewSearchFilters.addFilterToGroup SearchKeyCommunities
      { Cardinality := 0, Name := Community.string comm, Value := FilterValue.community comm } =
    some { NewSearchFilters with communities := { Key := SearchKeyCommunities, Filters := [{ Cardinality := 1, Name := Community.string comm, Value := FilterValue.community comm }], filtersIdx := mapSet [] (Community.string comm) 0 } } := by
  simp [SearchFilters.addFilterToGroup, SearchKeyCommunities, SearchKeySources,
    SearchKeyASNS, SearchKeyExtCommunities, SearchKeyLargeCommunities, SearchKeyAddrFamily,
    SearchFilterGroup.AddFilter, SearchFilterGroup.GetFilterByValue,
    filterValueAsString, NewSearchFilters, emptyGroup, mapGet?]

/-- Adding a community filter to a fresh filter set (large facet). -/
theorem addFilterToGroup_large (comm : Community) :
    NewSearchFilters.addFilterToGroup SearchKeyLargeCommunities
      { Cardinality := 0, Name := Community.string comm, Value := FilterValue.community comm } =
    some { NewSearchFilters with largeCommunities := { Key := SearchKeyLargeCommunities, Filters := [{ Cardinality := 1, Name := Community.string comm, Value := FilterValue.community comm }], filtersIdx := mapSet [] (Community.string comm) 0 } } := by
  simp [SearchFilters.addFilterToGroup, SearchKeyLargeCommunities, SearchKeySources,
    SearchKeyASNS, SearchKeyCommunities, SearchKeyExtCommunities, SearchKeyAddrFamily,
    SearchFilterGroup.AddFilter, SearchFilterGroup.GetFilterByValue,
    filterValueAsString, NewSearchFilters, emptyGroup, mapGet?]

/-- Claim C6: `FiltersFromTokens` ignores every token without the `#`
marker; for a marked token, fewer than two colon segments after the marker
fail the whole call with the incomplete-community error; a first segment
that does not `Atoi`-parse routes the text to the ext-community parser and
a successful parse adds the filter to the ext-community group; otherwise
two segments add a standard-community filter and three a large-community
filter to their groups (cardinality forced to 1 by `AddFilter`, the other
five groups untouched); the spec scenario `#65000:100`, `#RPKI:1:2` yields
one standard and one extended filter. -/
theorem filters_from_tokens_classification :
    (∀ ts : List String, FiltersFromTokens ts = FiltersFromTokens (ts.filter (fun t => goHasPrefixChar '#' t))) ∧
    (∀ text : String, ∀ rest : List String, (goSplit ':' text).length < 2 →
      FiltersFromTokens (("#" ++ text) :: rest) = some (Except.error "BGP community incomplete")) ∧
    (∀ text : String, ∀ f : SearchFilter, 2 ≤ (goSplit ':' text).length →
      atoi? ((goSplit ':' text).headD "") = none →
      parseExtCommunityValue text = Except.ok f →
      ∃ S, FiltersFromTokens ["#" ++ text] = some (Except.ok S) ∧
        S.extCommunities.Filters = [{ f with Cardinality := 1 }] ∧
        S.sources = NewSearchFilters.sources ∧ S.asns = NewSearchFilters.asns ∧
        S.communities = NewSearchFilters.communities ∧
        S.largeCommunities = NewSearchFilters.largeCommunities ∧
        S.addrFamily = NewSearchFilters.addrFamily) ∧
    (∀ text : String, ∀ f : SearchFilter, (goSplit ':' text).length = 2 →
      (atoi? ((goSplit ':' text).headD "")).isSome = true →
      parseCommunityValue text = Except.ok f →
      ∃ S, FiltersFromTokens ["#" ++ text] = some (Except.ok S) ∧
        S.communities.Filters = [{ f with Cardinality := 1 }] ∧
        S.sources = NewSearchFilters.sources ∧ S.asns = NewSearchFilters.asns ∧
        S.extCommunities = NewSearchFilters.extCommunities ∧
        S.largeCommunities = NewSearchFilters.largeCommunities ∧
        S.addrFamily = NewSearchFilters.addrFamily) ∧
    (∀ text : String, ∀ f : SearchFilter, (goSplit ':' text).length = 3 →
      (atoi? ((goSplit ':' text).headD "")).isSome = true →
      parseCommunityValue text = Except.ok f →
      ∃ S, FiltersFromTokens ["#" ++ text] = some (Except.ok S) ∧
        S.largeCommunities.Filters = [{ f with Cardinality := 1 }] ∧
        S.sources = NewSearchFilters.sources ∧ S.asns = NewSearchFilters.asns ∧
        S.communities = NewSearchFilters.communities ∧
        S.extCommunities = NewSearchFilters.extCommunities ∧
        S.addrFamily = NewSearchFilters.addrFamily) ∧
    (FiltersFromTokens ["#65000:100", "#RPKI:1:2"] = some (Except.ok { NewSearchFilters with
      communities := { Key := SearchKeyCommunities, Filters := [{ Cardinality := 1, Name := "65000:100", Value := FilterValue.community [65000, 100] }], filtersIdx := [("65000:100", 0)] },
      extCommunities := { Key := SearchKeyExtCommunities, Filters := [{ Cardinality := 1, Name := "RPKI:1:2", Value := FilterValue.extCommunity [ExtElem.s "RPKI", ExtElem.i 1, ExtElem.i 2] }], filtersIdx := [("RPKI:1:2", 0)] } })) := by
  refine ⟨?_, ?_, ?_, ?_, ?_, by decide⟩
  · intro ts
    exact filtersFromTokensAux_filter ts NewSearchFilters
  · intro text rest hlen
    refine filtersFromTokens_err text rest _ ?_
    simp [parseCommunityFilterText, hlen]
  · intro text f hlen hext hok
    obtain ⟨tag, x, y, hf⟩ := parseExtCommunityValue_shape text f hok
    subst hf
    have hext2 : atoi? ((goSplit ':' text).head?.getD "") = none := by
      simpa using hext
    have hclass : parseCommunityFilterText text = Except.ok (SearchKeyExtCommunities, { Cardinality := 0, Name := tag ++ ":" ++ toString x ++ ":" ++ toString y, Value := FilterValue.extCommunity [ExtElem.s tag, ExtElem.i x, ExtElem.i y] }) := by
      simp [parseCommunityFilterText, Nat.not_lt.mpr hlen, hext, hext2, hok]
    refine ⟨{ NewSearchFilters with extCommunities := { Key := SearchKeyExtCommunities, Filters := [{ Cardinality := 1, Name := tag ++ ":" ++ toString x ++ ":" ++ toString y, Value := FilterValue.extCommunity [ExtElem.s tag, ExtElem.i x, ExtElem.i y] }], filtersIdx := mapSet [] (tag ++ ":" ++ toString x ++ ":" ++ toString y) 0 } }, ?_, rfl, rfl, rfl, rfl, rfl, rfl⟩
    rw [filtersFromTokens_single, hclass]
    simp [addFilterToGroup_ext]
  · intro text f hlen hfirst hok
    obtain ⟨comm, hf⟩ := parseCommunityValue_shape text f hok
    subst hf
    have hfirst2 : ¬ atoi? ((goSplit ':' text).head?.getD "") = none := by
      have := Option.isSome_iff_ne_none.mp hfirst
      simpa using this
    have hclass : parseCommunityFilterText text = Except.ok (SearchKeyCommunities, { Cardinality := 0, Name := Community.string comm, Value := FilterValue.community comm }) := by
      have h2 : ¬ (goSplit ':' text).length < 2 := by omega
      simp [parseCommunityFilterText, h2, Option.isNone_iff_eq_none, hfirst2, hok, hlen]
    refine ⟨{ NewSearchFilters with communities := { Key := SearchKeyCommunities, Filters := [{ Cardinality := 1, Name := Community.string comm, Value := FilterValue.community comm }], filtersIdx := mapSet [] (Community.string comm) 0 } }, ?_, rfl, rfl, rfl, rfl, rfl, rfl⟩
    rw [filtersFromTokens_single, hclass]
    simp [addFilterToGroup_comm]
  · intro text f hlen hfirst hok
    obtain ⟨comm, hf⟩ := parseCommunityValue_shape text f hok
    subst hf
    have hfirst2 : ¬ atoi? ((goSplit ':' text).head?.getD "") = none := by
      have := Option.isSome_iff_ne_none.mp hfirst
      simpa using this
    have hclass : parseCommunityFilterText text = Except.ok (SearchKeyLargeCommunities, { Cardinality := 0, Name := Community.string comm, Value := FilterValue.community comm }) := by
      have h2 : ¬ (goSplit ':' text).length < 2 := by omega
      have h3 : (goSplit ':' text).length ≠ 2 := by omega
      simp [parseCommunityFilterText, h2, h3, Option.isNone_iff_eq_none, hfirst2, hok]
    refine ⟨{ NewSearchFilters with largeCommunities := { Key := SearchKeyLargeCommunities, Filters := [{ Cardinality := 1, Name := Community.string comm, Value := FilterValue.community comm }], filtersIdx := mapSet [] (Community.string comm) 0 } }, ?_, rfl, rfl, rfl, rfl, rfl, rfl⟩
    rw [filtersFromTokens_single, hclass]
    simp [addFilterToGroup_large]

/-- Witness for C6 at concrete tokens: `#65000` (too few segments) fails
the call, and `#RPKI:1:2` adds one ext-community filter. -/
theorem filters_from_tokens_classification_witness :
    ((goSplit ':' "65000").length < 2 ∧
      FiltersFromTokens (("#" ++ "65000") :: []) = some (Except.error "BGP community incomplete")) ∧
    (2 ≤ (goSplit ':' "RPKI:1:2").length ∧
      atoi? ((goSplit ':' "RPKI:1:2").headD "") = none ∧
      parseExtCommunityValue "RPKI:1:2" = Except.ok { Cardinality := 0, Name := "RPKI:1:2", Value := FilterValue.extCommunity [ExtElem.s "RPKI", ExtElem.i 1, ExtElem.i 2] } ∧
      (∃ S, FiltersFromTokens ["#" ++ "RPKI:1:2"] = some (Except.ok S) ∧
        S.extCommunities.Filters = [{ Cardinality := 1, Name := "RPKI:1:2", Value := FilterValue.extCommunity [ExtElem.s "RPKI", ExtElem.i 1, ExtElem.i 2] }] ∧
        S.sources = NewSearchFilters.sources ∧ S.asns = NewSearchFilters.asns ∧
        S.communities = NewSearchFilters.communities ∧
        S.largeCommunities = NewSearchFilters.largeCommunities ∧
        S.addrFamily = NewSearchFilters.addrFamily)) :=
  ⟨⟨by decide, filters_from_tokens_classification.2.1 "65000" [] (by decide)⟩,
   ⟨by decide, by decide, by decide,
    filters_from_tokens_classification.2.2.1 "RPKI:1:2"
      { Cardinality := 0, Name := "RPKI:1:2", Value := FilterValue.extCommunity [ExtElem.s "RPKI", ExtElem.i 1, ExtElem.i 2] }
      (by decide) (by decide) (by decide)⟩⟩

/-- `SplitN(_, _, 2)` never yields an empty slice. -/
theorem goSplitN2_ne_nil (sep : Char) (t : String) : goSplitN2 sep t ≠ [] := by
  unfold goSplitN2
  cases h : breakAt sep t.data <;> simp

/-- The (dead) per-token error branch of `parseRangeCommunity` never
fires: the parts are the hyphen-bound pairs of all tokens. -/
theorem parseRangeParts_ok (s : String) (l : List String) :
    parseRangeParts s l = Except.ok (l.map splitRangePair) := by
  induction l with
  | nil => rfl
  | cons t rest ih =>
    unfold parseRangeParts
    cases h : goSplitN2 '-' t with
    | nil => exact absurd h (goSplitN2_ne_nil '-' t)
    | cons x xs => simp [h, ih, Except.map]

/-- An error on any non-empty, non-comment line aborts `parseRangeLines`. -/
theorem parseRangeLines_err (lines : List String)
    (h : ∃ l ∈ lines, goTrim l ≠ "" ∧ goHasPrefixChar '#' (goTrim l) = false ∧
      ∃ e, parseRangeCommunity (goTrim l) = Except.error e) :
    ∃ e2, parseRangeLines lines = Except.error e2 := by
  induction lines with
  | nil => simp at h
  | cons l rest ih =>
    obtain ⟨x, hx, hbad⟩ := h
    by_cases h1 : goTrim l = ""
    · have hxr : x ∈ rest := by
        rcases List.mem_cons.mp hx with hx2 | hx2
        · subst hx2
          exact absurd h1 hbad.1
        · exact hx2
      obtain ⟨e2, he2⟩ := ih ⟨x, hxr, hbad⟩
      exact ⟨e2, by simp [parseRangeLines, h1, he2]⟩
    · by_cases h2 : goHasPrefixChar '#' (goTrim l)
      · have hxr : x ∈ rest := by
          rcases List.mem_cons.mp hx with hx2 | hx2
          · subst hx2
            exact absurd h2 (by simp [hbad.2.1])
          · exact hx2
        obtain ⟨e2, he2⟩ := ih ⟨x, hxr, hbad⟩
        exact ⟨e2, by simp [parseRangeLines, h1, h2, he2]⟩
      · cases hp : parseRangeCommunity (goTrim l) with
        | error e => exact ⟨e, by simp [parseRangeLines, h1, h2, hp]⟩
        | ok c =>
          have hxr : x ∈ rest := by
            rcases List.mem_cons.mp hx with hx2 | hx2
            · subst hx2
              obtain ⟨e, he⟩ := hbad.2.2
              rw [hp] at he
              cases he
            · exact hx2
          obtain ⟨e2, he2⟩ := ih ⟨x, hxr, hbad⟩
          exact ⟨e2, by simp [parseRangeLines, h1, h2, hp, he2, Except.map]⟩

/-- Claim C7, counterexample: the line `100-200:300` has a first
colon-token (`100-200`) that is not integer-parseable, so per the claim it
should classify as extended and error (2 tokens, not 3); the code instead
tests only the low bound `100` of the first token's range, classifies the
line as standard, and parses it successfully. -/
theorem range_community_counterexample :
    atoi? "100-200" = none ∧
    parseRangeCommunitiesSet "100-200:300" =
      Except.ok { Standard := [[RangePart.ints [100, 200], RangePart.ints [300, 300]]],
                  Large := [], Extended := [] } := by
  constructor
  · decide
  · decide

/-- Claim C7, amended: `parseRangeCommunity` classifies a line by the
*low bound* of its first colon-token (the text before the token's first
hyphen): fewer than 2 colon-tokens errors; an integer-parseable low bound
gives a standard range at 2 tokens and a large range at 3; a
non-integer-parseable low bound makes the line extended, which errors
unless there are exactly 3 tokens; and one failing non-empty, non-comment
line aborts the whole `parseRangeCommunitiesSet` with an error (no
partial set). Range kinds use the spec-modelled `Type()`. -/
theorem range_community_classification :
    (∀ s : String, (goSplit ':' s).length < 2 →
      parseRangeCommunity s = Except.error (ErrInvalidCommunity s)) ∧
    (∀ s : String, (goSplit ':' s).length = 2 →
      (atoi? (splitRangePair ((goSplit ':' s).headD "")).1).isSome = true →
      ∃ c, parseRangeCommunity s = Except.ok c ∧ c.Type = some BGPCommunityType.std) ∧
    (∀ s : String, (goSplit ':' s).length = 3 →
      (atoi? (splitRangePair ((goSplit ':' s).headD "")).1).isSome = true →
      ∃ c, parseRangeCommunity s = Except.ok c ∧ c.Type = some BGPCommunityType.large) ∧
    (∀ s : String, 2 ≤ (goSplit ':' s).length → (goSplit ':' s).length ≠ 3 →
      atoi? (splitRangePair ((goSplit ':' s).headD "")).1 = none →
      parseRangeCommunity s = Except.error (ErrInvalidCommunity s)) ∧
    (∀ s : String, (goSplit ':' s).length = 3 →
      atoi? (splitRangePair ((goSplit ':' s).headD "")).1 = none →
      ∃ c, parseRangeCommunity s = Except.ok c ∧ c.Type = some BGPCommunityType.ext) ∧
    (∀ body : String,
      (∃ l ∈ goSplit '\n' body, goTrim l ≠ "" ∧ goHasPrefixChar '#' (goTrim l) = false ∧
        ∃ e, parseRangeCommunity (goTrim l) = Except.error e) →
      ∃ e2, parseRangeCommunitiesSet body = Except.error e2) := by
  refine ⟨?_, ?_, ?_, ?_, ?_, ?_⟩
  · intro s hlen
    simp [parseRangeCommunity, hlen]
  · intro s hlen hlow
    obtain ⟨t0, t1, hs⟩ := List.length_eq_two.mp hlen
    rw [hs] at hlow
    refine ⟨[RangePart.ints (IntListFromStrings [(splitRangePair t0).1, (splitRangePair t0).2]), RangePart.ints (IntListFromStrings [(splitRangePair t1).1, (splitRangePair t1).2])], ?_, rfl⟩
    simp only [parseRangeCommunity, hs, parseRangeParts_ok]
    simp [Option.isNone_iff_eq_none, Option.isSome_iff_ne_none.mp (by simpa using hlow)]
  · intro s hlen hlow
    obtain ⟨t0, t1, t2, hs⟩ := List.length_eq_three.mp hlen
    rw [hs] at hlow
    refine ⟨[RangePart.ints (IntListFromStrings [(splitRangePair t0).1, (splitRangePair t0).2]), RangePart.ints (IntListFromStrings [(splitRangePair t1).1, (splitRangePair t1).2]), RangePart.ints (IntListFromStrings [(splitRangePair t2).1, (splitRangePair t2).2])], ?_, rfl⟩
    simp only [parseRangeCommunity, hs, parseRangeParts_ok]
    simp [Option.isNone_iff_eq_none, Option.isSome_iff_ne_none.mp (by simpa using hlow)]
  · intro s hge hne hlow
    obtain ⟨t0, rest, hs⟩ : ∃ t0 rest, goSplit ':' s = t0 :: rest := by
      cases h : goSplit ':' s with
      | nil => rw [h] at hge; simp at hge
      | cons a b => exact ⟨a, b, rfl⟩
    rw [hs] at hlow hge hne
    simp only [parseRangeCommunity, hs, parseRangeParts_ok]
    have hlen2 : ¬ ((t0 :: rest).length < 2) := by omega
    have hmap : ¬ (((t0 :: rest).map splitRangePair).length ≤ 1) := by
      simp only [List.length_map]
      omega
    have hmap3 : ((t0 :: rest).map splitRangePair).length ≠ 3 := by
      simp only [List.length_map]
      omega
    have hlow2 : atoi? (splitRangePair t0).1 = none := by simpa using hlow
    simp [hlen2, hmap, hmap3, hlow2]
    intro hr1 hr2 hr3
    exfalso
    simp only [List.length_cons] at hne
    omega
  · intro s hlen hlow
    obtain ⟨t0, t1, t2, hs⟩ := List.length_eq_three.mp hlen
    rw [hs] at hlow
    refine ⟨[RangePart.strs [(splitRangePair t0).1, (splitRangePair t0).1], RangePart.ints (IntListFromStrings [(splitRangePair t1).1, (splitRangePair t1).2]), RangePart.ints (IntListFromStrings [(splitRangePair t2).1, (splitRangePair t2).2])], ?_, rfl⟩
    have hlow2 : atoi? (splitRangePair t0).1 = none := by simpa using hlow
    simp only [parseRangeCommunity, hs, parseRangeParts_ok]
    simp [hlow2]
  · intro body h
    obtain ⟨e2, he2⟩ := parseRangeLines_err (goSplit '\n' body) h
    exact ⟨e2, by simp [parseRangeCommunitiesSet, he2, Except.map]⟩

/-- Witness for C7's amended theorem at concrete lines: `65000` errors,
`65000:100-200` is standard, `64496:100-200:300` is large, `RPKI:1` errors,
`RPKI:1:2` is extended, and a body with one bad line aborts. -/
theorem range_community_classification_witness :
    ((goSplit ':' "65000").length < 2 ∧
      parseRangeCommunity "65000" = Except.error (ErrInvalidCommunity "65000")) ∧
    ((goSplit ':' "65000:100-200").length = 2 ∧
      (atoi? (splitRangePair ((goSplit ':' "65000:100-200").headD "")).1).isSome = true ∧
      (∃ c, parseRangeCommunity "65000:100-200" = Except.ok c ∧ c.Type = some BGPCommunityType.std)) ∧
    ((goSplit ':' "64496:100-200:300").length = 3 ∧
      (atoi? (splitRangePair ((goSplit ':' "64496:100-200:300").headD "")).1).isSome = true ∧
      (∃ c, parseRangeCommunity "64496:100-200:300" = Except.ok c ∧ c.Type = some BGPCommunityType.large)) ∧
    (2 ≤ (goSplit ':' "RPKI:1").length ∧ (goSplit ':' "RPKI:1").length ≠ 3 ∧
      atoi? (splitRangePair ((goSplit ':' "RPKI:1").headD "")).1 = none ∧
      parseRangeCommunity "RPKI:1" = Except.error (ErrInvalidCommunity "RPKI:1")) ∧
    ((goSplit ':' "RPKI:1:2").length = 3 ∧
      atoi? (splitRangePair ((goSplit ':' "RPKI:1:2").headD "")).1 = none ∧
      (∃ c, parseRangeCommunity "RPKI:1:2" = Except.ok c ∧ c.Type = some BGPCommunityType.ext)) ∧
    ((∃ l ∈ goSplit '\n' "# comment\n65000:100\nRPKI:1\n", goTrim l ≠ "" ∧
        goHasPrefixChar '#' (goTrim l) = false ∧
        ∃ e, parseRangeCommunity (goTrim l) = Except.error e) ∧
      ∃ e2, parseRangeCommunitiesSet "# comment\n65000:100\nRPKI:1\n" = Except.error e2) :=
  ⟨⟨by decide, range_community_classification.1 "65000" (by decide)⟩,
   ⟨by decide, by decide, range_community_classification.2.1 "65000:100-200" (by decide) (by decide)⟩,
   ⟨by decide, by decide, range_community_classification.2.2.1 "64496:100-200:300" (by decide) (by decide)⟩,
   ⟨by decide, by decide, by decide, range_community_classification.2.2.2.1 "RPKI:1" (by decide) (by decide) (by decide)⟩,
   ⟨by decide, by decide, range_community_classification.2.2.2.2.1 "RPKI:1:2" (by decide) (by decide)⟩,
   ⟨⟨"RPKI:1", by decide, by decide, by decide, ErrInvalidCommunity "RPKI:1", by decide⟩,
    range_community_classification.2.2.2.2.2 "# comment\n65000:100\nRPKI:1\n"
      ⟨"RPKI:1", by decide, by decide, by decide, ErrInvalidCommunity "RPKI:1", by decide⟩⟩⟩

/-- The comma loop of the rejection-candidate parser: threading the
counter equals enumerating the communities from the current offset. -/
theorem rejInnerFold (cs : List String) (m : BGPCommunityMap) (n : Nat) :
    cs.foldl (fun (a : BGPCommunityMap × Nat) c => (a.1.Set c ("reject-candidate-" ++ toString (a.2 + 1)), a.2 + 1)) (m, n)
    = ((List.enumFrom n cs).foldl (fun acc iC => acc.Set iC.2 ("reject-candidate-" ++ toString (iC.1 + 1))) m, n + cs.length) := by
  induction cs generalizing m n with
  | nil => simp
  | cons c rest ih =>
    simp only [List.foldl_cons, List.enumFrom, List.length_cons]
    rw [ih]
    refine congrArg _ ?_
    omega

/-- The line loop of the rejection-candidate parser: skipping malformed
and non-`communities` lines, the result enumerates the concatenation of
all `communities` lines' comma entries from the current offset. -/
theorem rejLineFold (lines : List String) (m : BGPCommunityMap) (n : Nat) :
    lines.foldl (fun (acc : BGPCommunityMap × Nat) line =>
      match goSplitN2 '=' line with
      | [k, v] =>
        if goTrim k = "communities" then
          (goSplit ',' (goTrim v)).foldl
            (fun (a : BGPCommunityMap × Nat) c =>
              (a.1.Set c ("reject-candidate-" ++ toString (a.2 + 1)), a.2 + 1))
            acc
        else acc
      | _ => acc) (m, n)
    = ((List.enumFrom n (lines.flatMap (fun line =>
          match goSplitN2 '=' line with
          | [k, v] => if goTrim k = "communities" then goSplit ',' (goTrim v) else []
          | _ => []))).foldl
        (fun acc iC => acc.Set iC.2 ("reject-candidate-" ++ toString (iC.1 + 1))) m,
       n + (lines.flatMap (fun line =>
          match goSplitN2 '=' line with
          | [k, v] => if goTrim k = "communities" then goSplit ',' (goTrim v) else []
          | _ => [])).length) := by
  induction lines generalizing m n with
  | nil => simp
  | cons line rest ih =>
    rw [List.foldl_cons, List.flatMap_cons]
    cases h : goSplitN2 '=' line with
    | nil =>
      simp only [h]
      rw [ih]
      simp
    | cons k tail =>
      cases tail with
      | nil =>
        simp only [h]
        rw [ih]
        simp
      | cons v tail2 =>
        cases tail2 with
        | nil =>
          simp only [h]
          by_cases hk : goTrim k = "communities"
          · rw [if_pos hk, if_pos hk, rejInnerFold, ih,
              List.enumFrom_append, List.foldl_append, List.length_append]
            refine congrArg _ ?_
            omega
          · rw [if_neg hk, if_neg hk, ih]
            simp
        | cons w tail3 =>
          simp only [h]
          rw [ih]
          simp

/-- The line loop of `parseAndMergeCommunities`: one entry per `=` line,
every other line skipped. -/
theorem parseMergeFold (lines : List String) (m : BGPCommunityMap) :
    lines.foldl (fun acc line =>
      match goSplitN2 '=' line with
      | [k, v] => acc.Set (goTrim k) (goTrim v)
      | _ => acc) m
    = (lines.filterMap (fun line =>
        match goSplitN2 '=' line with
        | [k, v] => some (goTrim k, goTrim v)
        | _ => none)).foldl (fun acc kv => acc.Set kv.1 kv.2) m := by
  induction lines generalizing m with
  | nil => rfl
  | cons line rest ih =>
    cases h : goSplitN2 '=' line with
    | nil => simp [h, ih, List.filterMap_cons]
    | cons k tail =>
      cases tail with
      | nil => simp [h, ih, List.filterMap_cons]
      | cons v tail2 =>
        cases tail2 with
        | nil => simp [h, ih, List.filterMap_cons]
        | cons w tail3 => simp [h, ih, List.filterMap_cons]

/-- Claim C9: the forgiving label-directory parsers never fail the caller.
`parseAndMergeCommunities` returns, for every input body, the directory
extending the given one with exactly one entry (trimmed key → trimmed
label) per line containing `=`, skipping every other line; and
`parseRejectionCandidateCommunities` skips malformed lines and lines whose
trimmed key is not `communities`, binds each comma-separated community of
the `communities` lines to `reject-candidate-<n>` with `n` its position
counted from 1 (cumulative across lines), and always returns a nil
error (`Except.ok`) whatever the input. -/
theorem forgiving_parsers (m comms : BGPCommunityMap) (body s : String) :
    parseAndMergeCommunities m body =
      ((goSplit '\n' body).filterMap (fun line =>
        match goSplitN2 '=' line with
        | [k, v] => some (goTrim k, goTrim v)
        | _ => none)).foldl (fun acc kv => acc.Set kv.1 kv.2) m ∧
    parseRejectionCandidateCommunities comms s = Except.ok
      (((goSplit '\n' s).flatMap (fun line =>
        match goSplitN2 '=' line with
        | [k, v] => if goTrim k = "communities" then goSplit ',' (goTrim v) else []
        | _ => [])).enum.foldl
          (fun acc iC => acc.Set iC.2 ("reject-candidate-" ++ toString (iC.1 + 1))) comms) := by
  constructor
  · exact parseMergeFold (goSplit '\n' body) m
  · show Except.ok _ = _
    rw [rejLineFold]
    rfl

/-- `SplitN(_, _, 2)` yields at most two pieces. -/
theorem goSplitN2_length_le (sep : Char) (t : String) :
    (goSplitN2 sep t).length ≤ 2 := by
  unfold goSplitN2
  cases h : breakAt sep t.data <;> simp

/-- Claim C10: on an extended-community line whose first colon-token
contains a hyphen, `parseRangeCommunity` splits that token at its first
hyphen, uses only the text before the hyphen as the type tag — for both
bounds of the tag's range — and silently discards the text after the
hyphen (the returned range never mentions it). The line is extended
because `Atoi` fails on that before-hyphen text. -/
theorem ext_tag_hyphen_discards (s t0 t1 t2 h : String) (restc : List String)
    (hs : goSplit ':' s = [t0, t1, t2])
    (hh : goSplitN2 '-' t0 = h :: restc)
    (hrest : restc ≠ [])
    (hlow : atoi? h = none) :
    parseRangeCommunity s = Except.ok
      [RangePart.strs [h, h],
       RangePart.ints (IntListFromStrings [(splitRangePair t1).1, (splitRangePair t1).2]),
       RangePart.ints (IntListFromStrings [(splitRangePair t2).1, (splitRangePair t2).2])] := by
  have hlen := goSplitN2_length_le '-' t0
  rw [hh] at hlen
  obtain ⟨y, hy⟩ : ∃ y, restc = [y] := by
    rcases restc with _ | ⟨y, _ | ⟨z, zs⟩⟩
    · exact absurd rfl hrest
    · exact ⟨y, rfl⟩
    · simp at hlen
  subst hy
  have hsp : splitRangePair t0 = (h, y) := by simp [splitRangePair, hh]
  simp only [parseRangeCommunity, hs, parseRangeParts_ok]
  simp [hsp, hlow]

/-- Witness for C10 at the token `RPKI-X:1:2`: the tag is `RPKI`, the
text `X` after the hyphen is dropped. -/
theorem ext_tag_hyphen_discards_witness :
    goSplit ':' "RPKI-X:1:2" = ["RPKI-X", "1", "2"] ∧
    goSplitN2 '-' "RPKI-X" = ["RPKI", "X"] ∧
    (["X"] : List String) ≠ [] ∧
    atoi? "RPKI" = none ∧
    parseRangeCommunity "RPKI-X:1:2" = Except.ok
      [RangePart.strs ["RPKI", "RPKI"],
       RangePart.ints (IntListFromStrings [(splitRangePair "1").1, (splitRangePair "1").2]),
       RangePart.ints (IntListFromStrings [(splitRangePair "2").1, (splitRangePair "2").2])] :=
  ⟨by decide, by decide, by decide, by decide,
   ext_tag_hyphen_discards "RPKI-X:1:2" "RPKI-X" "1" "2" "RPKI" ["X"]
     (by decide) (by decide) (by decide) (by decide)⟩
